import Mathlib

/-!
Verification development for the IrrIMGUI native OpenGL driver
(`source/COpenGLIMGUIDriver.cpp`).

The C++ driver is embedded shallowly:

* 32-bit words of driver-side buffers live in a word-addressed memory
  `Nat → Nat`; each cell holds one `unsigned int`.  The target platform of
  the driver (x86) is little-endian, so the byte written first by
  `SColor::toOpenGLColor` is the least significant byte of the stored
  word (`packRGBAWordLE`).
* `new unsigned int[n]` / `delete[]` are modelled by a bump allocator
  (`CppHeap`) that records the live allocations.
* OpenGL is modelled by an explicit state record (`GLState`): texture
  names, the 2D texture binding, the fixed-function enable flags, blend
  function, matrix mode, matrix stacks and the attribute stack, plus a
  record of `glTexImage2D` uploads.  Calls that matter for the draw path
  (`glBindTexture`, `glScissor`, `glDrawElements`, user callbacks) are
  additionally recorded in a trace (`GLCall`).
* Irrlicht's `SColor` helpers (`setData`, `toOpenGLColor`, the packed
  16-bit conversions) are external library functions; they are embedded
  from their documented Irrlicht semantics.
-/

set_option linter.unusedVariables false

/-! ### Definitions -/

/-- Ascending `for` loop: `forLoop f n a` applies `f 0`, then `f 1`, ...,
then `f (n-1)` to the accumulator, like `for(i = 0; i < n; i++)`. -/
def forLoop {α : Type} (f : Nat → α → α) : Nat → α → α
  | 0, a => a
  | n + 1, a => f n (forLoop f n a)

/-- Store word `v` at word address `a`. -/
def writeWord (m : Nat → Nat) (a v : Nat) : Nat → Nat :=
  fun x => if x = a then v else m x

/-- Irrlicht `SColor::setData(p, ECF_A8R8G8B8)`: the color is the 32-bit
word read from memory. -/
def SColor_setData_A8R8G8B8 (w : Nat) : Nat := w % 4294967296

/-- Irrlicht `SColor::getAlpha`: bits 24-31 of the A8R8G8B8 color. -/
def SColor_getAlpha (c : Nat) : Nat := c / 16777216 % 256

/-- Irrlicht `SColor::getRed`: bits 16-23 of the A8R8G8B8 color. -/
def SColor_getRed (c : Nat) : Nat := c / 65536 % 256

/-- Irrlicht `SColor::getGreen`: bits 8-15 of the A8R8G8B8 color. -/
def SColor_getGreen (c : Nat) : Nat := c / 256 % 256

/-- Irrlicht `SColor::getBlue`: bits 0-7 of the A8R8G8B8 color. -/
def SColor_getBlue (c : Nat) : Nat := c % 256

/-- The 32-bit word whose bytes, in increasing memory address order on a
little-endian machine, are `b0, b1, b2, b3`. -/
def packRGBAWordLE (b0 b1 b2 b3 : Nat) : Nat :=
  b0 + b1 * 256 + b2 * 65536 + b3 * 16777216

/-- Irrlicht `SColor::toOpenGLColor`: writes the bytes R, G, B, A in this
order; as a little-endian word R is the least significant byte. -/
def SColor_toOpenGLColor (c : Nat) : Nat :=
  packRGBAWordLE (SColor_getRed c) (SColor_getGreen c) (SColor_getBlue c) (SColor_getAlpha c)

/-- Body of the inner loop of `OpenGLHelper::copyARGBImageToRGBA`:
`PixelColor.setData(&pSource[X + Y*Width], ECF_A8R8G8B8)` followed by
`PixelColor.toOpenGLColor(&pDestination[X + Y*Width])`. -/
def argbPixelWrite (pSrc pDst W X Y : Nat) (m : Nat → Nat) : Nat → Nat :=
  writeWord m (pDst + (X + Y * W))
    (SColor_toOpenGLColor (SColor_setData_A8R8G8B8 (m (pSrc + (X + Y * W)))))

/-- The inner `for(Y = 0; Y < Height; Y++)` loop of
`OpenGLHelper::copyARGBImageToRGBA` at column `X`. -/
def argbColLoop (pSrc pDst W X h : Nat) (m : Nat → Nat) : Nat → Nat :=
  forLoop (fun Y mm => argbPixelWrite pSrc pDst W X Y mm) h m

/-- The outer `for(X = 0; X < Width; X++)` loop of
`OpenGLHelper::copyARGBImageToRGBA`, running columns `0..n-1`. -/
def argbRowsLoop (pSrc pDst W H n : Nat) (m : Nat → Nat) : Nat → Nat :=
  forLoop (fun X mm => argbColLoop pSrc pDst W X H mm) n m

/-- `OpenGLHelper::copyARGBImageToRGBA(pSource, pDestination, Width, Height)`. -/
def copyARGBImageToRGBA (pSrc pDst W H : Nat) (m : Nat → Nat) : Nat → Nat :=
  argbRowsLoop pSrc pDst W H W m

/-- The C++ heap used by the driver for temporary pixel buffers:
word-addressed memory, the list of live `new[]` blocks
(base address, size in words), and a bump-allocation frontier. -/
structure CppHeap where
  mem : Nat → Nat
  allocs : List (Nat × Nat)
  nextFree : Nat

/-- `new unsigned int[size]`: returns the fresh base address. -/
def CppHeap.allocWords (h : CppHeap) (size : Nat) : Nat × CppHeap :=
  (h.nextFree, ⟨h.mem, (h.nextFree, size) :: h.allocs, h.nextFree + size⟩)

/-- `delete[] base`: removes the allocation record; the stale bytes stay
in `mem` (freed C++ memory is not scrubbed). -/
def CppHeap.freeBlock (h : CppHeap) (base : Nat) : CppHeap :=
  ⟨h.mem, h.allocs.eraseP (fun p => p.1 == base), h.nextFree⟩

/-- OpenGL matrix modes used by the driver. -/
inductive GLMatrixMode
  | projection
  | modelview
deriving DecidableEq, Repr

/-- Symbolic OpenGL matrices: the identity, an `glOrtho` matrix, a product,
or an arbitrary pre-existing matrix. -/
inductive GLMatrix
  | ident
  | ortho (l r b t nv fv : ℚ)
  | comp (m1 m2 : GLMatrix)
  | base (idx : Nat)
deriving DecidableEq, Repr

/-- The state saved by `glPushAttrib(GL_ENABLE_BIT | GL_COLOR_BUFFER_BIT |
GL_TRANSFORM_BIT)`: the enable flags touched by the driver, the blend
function and the matrix mode. -/
structure GLAttribSnapshot where
  blend : Bool
  lighting : Bool
  cullFace : Bool
  depthTest : Bool
  scissorTest : Bool
  texture2D : Bool
  blendSrc : Nat
  blendDst : Nat
  matrixMode : GLMatrixMode
deriving DecidableEq, Repr

/-- One `glTexImage2D` upload: texture name, color format, source pointer
and dimensions. -/
structure GLUpload where
  name : Nat
  fmt : Nat
  ptr : Nat
  width : Nat
  height : Nat
deriving DecidableEq, Repr

/-- The OpenGL server state tracked by the embedding. -/
structure GLState where
  liveTextures : List Nat
  nextTextureName : Nat
  boundTexture2D : Nat
  blend : Bool
  lighting : Bool
  cullFace : Bool
  depthTest : Bool
  scissorTest : Bool
  texture2D : Bool
  blendSrc : Nat
  blendDst : Nat
  clientVertexArray : Bool
  clientTexCoordArray : Bool
  clientColorArray : Bool
  vertexPtr : Nat
  texCoordPtr : Nat
  colorPtr : Nat
  matrixMode : GLMatrixMode
  projMatrix : GLMatrix
  projStack : List GLMatrix
  modelviewMatrix : GLMatrix
  modelviewStack : List GLMatrix
  attribStack : List GLAttribSnapshot
  scissorBox : Int × Int × Int × Int
  uploads : List GLUpload
deriving DecidableEq, Repr

def GL_RGBA : Nat := 0x1908

def GL_ALPHA : Nat := 0x1906

def GL_SRC_ALPHA : Nat := 0x0302

def GL_ONE_MINUS_SRC_ALPHA : Nat := 0x0303

/-- `glGenTextures(1, &id)`: returns a fresh texture name. -/
def glGenTexture (gl : GLState) : Nat × GLState :=
  (gl.nextTextureName,
   { gl with
     liveTextures := gl.nextTextureName :: gl.liveTextures
     nextTextureName := gl.nextTextureName + 1 })

/-- `glDeleteTextures(1, &n)`. -/
def glDeleteTextureOp (gl : GLState) (n : Nat) : GLState :=
  { gl with liveTextures := gl.liveTextures.erase n }

/-- `glBindTexture(GL_TEXTURE_2D, n)`. -/
def glBindTexture2D (gl : GLState) (n : Nat) : GLState :=
  { gl with boundTexture2D := n }

/-- `OpenGLHelper::createTextureInMemory`: saves the current binding,
creates and binds a new texture, uploads the pixel data, and restores the
old binding.  (`glTexParameteri` filter settings are not tracked.) -/
def createTextureInMemory (oglFmt pPixelData Width Height : Nat) (gl : GLState) :
    Nat × GLState :=
  let oldTextureID := gl.boundTexture2D
  let gen := glGenTexture gl
  let gl1 := glBindTexture2D gen.2 gen.1
  let gl2 := { gl1 with uploads := ⟨gen.1, oglFmt, pPixelData, Width, Height⟩ :: gl1.uploads }
  let gl3 := glBindTexture2D gl2 oldTextureID
  (gen.1, gl3)

/-- The IrrIMGUI color format enumeration (`EColorFormat`); formats other
than the three handled ones are collapsed into `ECF_UNKNOWN` with their
numeric code. -/
inductive EColorFormat
  | ECF_A8R8G8B8
  | ECF_R8G8B8A8
  | ECF_A8
  | ECF_UNKNOWN (code : Nat)
deriving DecidableEq, Repr

/-- `OpenGLHelper::createTextureIDFromRawData`.  The `FASSERT(false)` in
the `default` case is modelled by returning `none`. -/
def createTextureIDFromRawData (ColorFormat : EColorFormat)
    (pPixelData Width Height : Nat) (h : CppHeap) (gl : GLState) :
    Option (Nat × CppHeap × GLState) :=
  match ColorFormat with
  | .ECF_A8R8G8B8 =>
    let al := h.allocWords (Width * Height)
    let h2 : CppHeap := ⟨copyARGBImageToRGBA pPixelData al.1 Width Height al.2.mem,
                         al.2.allocs, al.2.nextFree⟩
    let ct := createTextureInMemory GL_RGBA al.1 Width Height gl
    some (ct.1, h2.freeBlock al.1, ct.2)
  | .ECF_R8G8B8A8 =>
    let ct := createTextureInMemory GL_RGBA pPixelData Width Height gl
    some (ct.1, h, ct.2)
  | .ECF_A8 =>
    let ct := createTextureInMemory GL_ALPHA pPixelData Width Height gl
    some (ct.1, h, ct.2)
  | .ECF_UNKNOWN _ => none

/-- A concrete OpenGL state used by the witnesses. -/
def glA : GLState :=
  { liveTextures := [7]
    nextTextureName := 10
    boundTexture2D := 3
    blend := false
    lighting := true
    cullFace := true
    depthTest := true
    scissorTest := false
    texture2D := false
    blendSrc := 1
    blendDst := 0
    clientVertexArray := false
    clientTexCoordArray := false
    clientColorArray := false
    vertexPtr := 0
    texCoordPtr := 0
    colorPtr := 0
    matrixMode := .modelview
    projMatrix := .base 0
    projStack := []
    modelviewMatrix := .base 1
    modelviewStack := []
    attribStack := []
    scissorBox := (0, 0, 0, 0)
    uploads := [] }

/-- A concrete memory for the copy-loop witness. -/
def memA : Nat → Nat := fun a => if a = 0 then 0xAABBCCDD else 7

/-- A concrete heap for the create-texture witness: one source word below
the allocation frontier. -/
def heapA : CppHeap := ⟨fun _ => 0x11223344, [(0, 1)], 1⟩

/-! ### Texture wrappers and the driver state -/

/-- Irrlicht `IImage::getBitsPerPixelFromFormat` for the packed formats
`ECF_A1R5G5B5 = 0`, `ECF_R5G6B5 = 1`, `ECF_R8G8B8 = 2`, `ECF_A8R8G8B8 = 3`. -/
def getBitsPerPixelFromFormat (fmt : Nat) : Nat :=
  if fmt = 0 then 16 else if fmt = 1 then 16 else if fmt = 2 then 24
  else if fmt = 3 then 32 else 0

/-- Irrlicht `A1R5G5B5toA8R8G8B8`. -/
def A1R5G5B5toA8R8G8B8 (c : Nat) : Nat :=
  (if c &&& 0x8000 ≠ 0 then 0xFF000000 else 0)
    ||| ((c &&& 0x7C00) <<< 9) ||| ((c &&& 0x7000) <<< 4)
    ||| ((c &&& 0x03E0) <<< 6) ||| ((c &&& 0x0380) <<< 1)
    ||| ((c &&& 0x001F) <<< 3) ||| ((c &&& 0x001C) >>> 2)

/-- Irrlicht `R5G6B5toA8R8G8B8`. -/
def R5G6B5toA8R8G8B8 (c : Nat) : Nat :=
  0xFF000000 ||| ((c &&& 0xF800) <<< 8) ||| ((c &&& 0x07E0) <<< 5)
    ||| ((c &&& 0x001F) <<< 3)

/-- Little-endian 16-bit read from byte memory. -/
def readWord16LE (m : Nat → Nat) (a : Nat) : Nat :=
  m a % 256 + (m (a + 1) % 256) * 256

/-- Little-endian 32-bit read from byte memory. -/
def readWord32LE (m : Nat → Nat) (a : Nat) : Nat :=
  m a % 256 + (m (a + 1) % 256) * 256 + (m (a + 2) % 256) * 65536
    + (m (a + 3) % 256) * 16777216

/-- Irrlicht `SColor::setData(p, fmt)` reading from the byte memory of a
locked texture. -/
def SColor_setData (fmt : Nat) (m : Nat → Nat) (a : Nat) : Nat :=
  if fmt = 0 then A1R5G5B5toA8R8G8B8 (readWord16LE m a)
  else if fmt = 1 then R5G6B5toA8R8G8B8 (readWord16LE m a)
  else if fmt = 2 then
    0xFF000000 ||| ((m a % 256) <<< 16) ||| ((m (a + 1) % 256) <<< 8) ||| (m (a + 2) % 256)
  else if fmt = 3 then readWord32LE m a
  else 0

/-- An Irrlicht `ITexture` as seen by the driver: dimensions, pitch, color
format, the pointer and byte contents of its locked pixel memory
(`lockPtr = 0` models a failing `lock()`), and the GL texture name that
the `COpenGLTexture` reinterpret hack reads. -/
structure ITextureObj where
  width : Nat
  height : Nat
  pitch : Nat
  colorFormat : Nat
  lockPtr : Nat
  lockMem : Nat → Nat
  textureName : Nat

/-- An Irrlicht `IImage` as seen by the driver: dimensions and the
`getPixel` function returning an `SColor` word. -/
structure IImageObj where
  width : Nat
  height : Nat
  pixel : Nat → Nat → Nat

/-- `CGUITexture::mSourceType` (`ETextureSourceType` from the private
header, reconstructed from its use in the driver). -/
inductive ETextureSourceType
  | ETST_RAWDATA
  | ETST_TEXTURE
  | ETST_IMAGE
  | ETST_GUIFONT
deriving DecidableEq, Repr

/-- The `CGUITexture` wrapper object.  `mSource` is the union of source
pointers/IDs (all pointer-sized), stored as its numeric value. -/
structure CGUITexture where
  mIsUsingOwnMemory : Bool
  mSourceType : ETextureSourceType
  mSource : Nat
  mIsValid : Bool
  mGPUTextureID : Nat
deriving DecidableEq, Repr

/-- `OpenGLHelper::deleteTextureFromMemory`: frees the GL texture exactly
when the wrapper uses its own memory, and always clears `mIsValid`. -/
def deleteTextureFromMemory (gl : GLState) (tex : CGUITexture) : GLState × CGUITexture :=
  (if tex.mIsUsingOwnMemory then glDeleteTextureOp gl tex.mGPUTextureID else gl,
   { tex with mIsValid := false })

/-- `OpenGLHelper::getTextureIDFromIrrlichtTexture`: reads the GL texture
name out of the Irrlicht texture object (the `COpenGLTexture` cast). -/
def getTextureIDFromIrrlichtTexture (it : ITextureObj) : Nat :=
  it.textureName

/-- Pixel write of the conversion loop in
`OpenGLHelper::copyTextureIDFromIrrlichtTexture`. -/
def itexPixelWrite (it : ITextureObj) (base X Y : Nat) (m : Nat → Nat) : Nat → Nat :=
  writeWord m (base + (X + Y * it.width))
    (SColor_toOpenGLColor
      (SColor_setData it.colorFormat it.lockMem
        (it.lockPtr + Y * it.pitch + X * (getBitsPerPixelFromFormat it.colorFormat / 8))))

/-- `OpenGLHelper::copyTextureIDFromIrrlichtTexture`: allocates a
`Width*Height`-word buffer, converts the locked texture data into it,
uploads it and frees it.  `FASSERT(pTextureData)` is `none`. -/
def copyTextureIDFromIrrlichtTexture (it : ITextureObj) (h : CppHeap) (gl : GLState) :
    Option (Nat × CppHeap × GLState) :=
  let W := it.width
  let H := it.height
  let al := h.allocWords (W * H)
  if it.lockPtr = 0 then none
  else
    let m2 := forLoop (fun X mm => forLoop (fun Y mm2 => itexPixelWrite it al.1 X Y mm2) H mm)
      W al.2.mem
    let ct := createTextureInMemory GL_RGBA al.1 W H gl
    some (ct.1, (⟨m2, al.2.allocs, al.2.nextFree⟩ : CppHeap).freeBlock al.1, ct.2)

/-- Pixel write of the conversion loop in
`OpenGLHelper::copyTextureIDFromIrrlichtImage`. -/
def imgPixelWrite (img : IImageObj) (base X Y : Nat) (m : Nat → Nat) : Nat → Nat :=
  writeWord m (base + (X + Y * img.width)) (SColor_toOpenGLColor (img.pixel X Y))

/-- `OpenGLHelper::copyTextureIDFromIrrlichtImage`: allocates a
`Width*Height`-word buffer, converts `getPixel` colors into it, uploads it
and frees it. -/
def copyTextureIDFromIrrlichtImage (img : IImageObj) (h : CppHeap) (gl : GLState) :
    Nat × CppHeap × GLState :=
  let W := img.width
  let H := img.height
  let al := h.allocWords (W * H)
  let m2 := forLoop (fun X mm => forLoop (fun Y mm2 => imgPixelWrite img al.1 X Y mm2) H mm)
    W al.2.mem
  let ct := createTextureInMemory GL_RGBA al.1 W H gl
  (ct.1, (⟨m2, al.2.allocs, al.2.nextFree⟩ : CppHeap).freeBlock al.1, ct.2)

/-- The part of `ImGuiIO` the driver touches: display size, framebuffer
scale, the font atlas texture ID, the alpha8 font atlas data returned by
`GetTexDataAsAlpha8`, and whether `ClearTexData` has been called. -/
structure ImGuiIOState where
  displaySizeX : ℚ
  displaySizeY : ℚ
  fbScaleX : ℚ
  fbScaleY : ℚ
  fontsTexID : Nat
  fontPixelPtr : Nat
  fontTexWidth : Nat
  fontTexHeight : Nat
  fontTexDataCleared : Bool
deriving DecidableEq, Repr

/-- `OpenGLHelper::copyTextureIDFromGUIFont`: uploads the alpha8 font
atlas via `createTextureIDFromRawData(ECF_A8, ...)` and clears the atlas
pixel data. -/
def copyTextureIDFromGUIFont (gio : ImGuiIOState) (h : CppHeap) (gl : GLState) :
    Option (Nat × ImGuiIOState × CppHeap × GLState) :=
  match createTextureIDFromRawData .ECF_A8 gio.fontPixelPtr gio.fontTexWidth
      gio.fontTexHeight h gl with
  | none => none
  | some r => some (r.1, { gio with fontTexDataCleared := true }, r.2.1, r.2.2)

/-- The Irrlicht video driver type; the source only tests `!= EDT_NULL`,
so every non-null driver type is collapsed into `EDT_OPENGL`. -/
inductive IrrDriverType
  | EDT_NULL
  | EDT_OPENGL
deriving DecidableEq, Repr

/-- Full state of a `COpenGLIMGUIDriver` run: the driver type, the
`mTextureInstances` counter (an `irr::u32`), the GL and heap states, the
ImGui IO block, and the object memories holding `CGUITexture` wrappers and
the external Irrlicht texture/image objects, plus a bump allocator for
`new CGUITexture`. -/
structure DriverState where
  driverType : IrrDriverType
  mTextureInstances : Nat
  gl : GLState
  heap : CppHeap
  gio : ImGuiIOState
  texObjects : Nat → CGUITexture
  itexObjects : Nat → ITextureObj
  imgObjects : Nat → IImageObj
  nextObjAddr : Nat

/-- Pointwise update of an object memory. -/
def updObj {α : Type} (m : Nat → α) (a : Nat) (v : α) : Nat → α :=
  fun x => if x = a then v else m x

/-- `irr::u32` increment. -/
def incU32 (x : Nat) : Nat := (x + 1) % 4294967296

/-- `irr::u32` decrement. -/
def decU32 (x : Nat) : Nat := (x + 4294967295) % 4294967296

/-! ### Driver operations -/

/-- The `IsRecreateNecessary` if-chain shared by the three `updateTexture`
overloads: recreate when the stored source type differs, when the supplied
source pointer differs, or when the wrapper uses its own GPU memory. -/
def updateRecreateNeeded (tex : CGUITexture) (ty : ETextureSourceType) (src : Nat) : Bool :=
  if tex.mSourceType ≠ ty then true
  else if src ≠ tex.mSource then true
  else tex.mIsUsingOwnMemory

/-- `COpenGLIMGUIDriver::createTexture(EColorFormat, unsigned char*,
unsigned int, unsigned int)`; returns the new wrapper's address. -/
def createTexture_raw (s : DriverState) (ColorFormat : EColorFormat)
    (pPixelData Width Height : Nat) : Option (DriverState × Nat) :=
  let s1 := { s with mTextureInstances := incU32 s.mTextureInstances }
  let addr := s1.nextObjAddr
  let tex0 : CGUITexture := ⟨true, .ETST_RAWDATA, pPixelData, true, 0⟩
  if s1.driverType ≠ .EDT_NULL then
    match createTextureIDFromRawData ColorFormat pPixelData Width Height s1.heap s1.gl with
    | none => none
    | some r =>
      some ({ s1 with
              heap := r.2.1
              gl := r.2.2
              texObjects := updObj s1.texObjects addr { tex0 with mGPUTextureID := r.1 }
              nextObjAddr := addr + 1 }, addr)
  else
    some ({ s1 with
            texObjects := updObj s1.texObjects addr { tex0 with mGPUTextureID := 1 }
            nextObjAddr := addr + 1 }, addr)

/-- `COpenGLIMGUIDriver::createTexture(irr::video::ITexture*)`; `fast`
selects the `_IRRIMGUI_FAST_OPENGL_TEXTURE_HANDLE_` build. -/
def createTexture_itex (fast : Bool) (s : DriverState) (pTexture : Nat) :
    Option (DriverState × Nat) :=
  let s1 := { s with mTextureInstances := incU32 s.mTextureInstances }
  let addr := s1.nextObjAddr
  if fast then
    let tex0 : CGUITexture := ⟨false, .ETST_TEXTURE, pTexture, true, 0⟩
    if s1.driverType ≠ .EDT_NULL then
      some ({ s1 with
              texObjects := updObj s1.texObjects addr
                { tex0 with mGPUTextureID := getTextureIDFromIrrlichtTexture (s1.itexObjects pTexture) }
              nextObjAddr := addr + 1 }, addr)
    else
      some ({ s1 with
              texObjects := updObj s1.texObjects addr { tex0 with mGPUTextureID := 1 }
              nextObjAddr := addr + 1 }, addr)
  else
    let tex0 : CGUITexture := ⟨true, .ETST_TEXTURE, pTexture, true, 0⟩
    if s1.driverType ≠ .EDT_NULL then
      match copyTextureIDFromIrrlichtTexture (s1.itexObjects pTexture) s1.heap s1.gl with
      | none => none
      | some r =>
        some ({ s1 with
                heap := r.2.1
                gl := r.2.2
                texObjects := updObj s1.texObjects addr { tex0 with mGPUTextureID := r.1 }
                nextObjAddr := addr + 1 }, addr)
    else
      some ({ s1 with
              texObjects := updObj s1.texObjects addr { tex0 with mGPUTextureID := 1 }
              nextObjAddr := addr + 1 }, addr)

/-- `COpenGLIMGUIDriver::createTexture(irr::video::IImage*)`. -/
def createTexture_img (s : DriverState) (pImage : Nat) : Option (DriverState × Nat) :=
  let s1 := { s with mTextureInstances := incU32 s.mTextureInstances }
  let addr := s1.nextObjAddr
  let tex0 : CGUITexture := ⟨true, .ETST_IMAGE, pImage, true, 0⟩
  if s1.driverType ≠ .EDT_NULL then
    let r := copyTextureIDFromIrrlichtImage (s1.imgObjects pImage) s1.heap s1.gl
    some ({ s1 with
            heap := r.2.1
            gl := r.2.2
            texObjects := updObj s1.texObjects addr { tex0 with mGPUTextureID := r.1 }
            nextObjAddr := addr + 1 }, addr)
  else
    some ({ s1 with
            texObjects := updObj s1.texObjects addr { tex0 with mGPUTextureID := 1 }
            nextObjAddr := addr + 1 }, addr)

/-- `COpenGLIMGUIDriver::createFontTexture`: creates a GUIFONT wrapper and
stores the wrapper's own address into `ImGui::GetIO().Fonts->TexID`. -/
def createFontTexture (s : DriverState) : Option (DriverState × Nat) :=
  let s1 := { s with mTextureInstances := incU32 s.mTextureInstances }
  let addr := s1.nextObjAddr
  let tex0 : CGUITexture := ⟨true, .ETST_GUIFONT, 0, true, 0⟩
  if s1.driverType ≠ .EDT_NULL then
    match copyTextureIDFromGUIFont s1.gio s1.heap s1.gl with
    | none => none
    | some r =>
      some ({ s1 with
              gio := { r.2.1 with fontsTexID := addr }
              heap := r.2.2.1
              gl := r.2.2.2
              texObjects := updObj s1.texObjects addr { tex0 with mGPUTextureID := r.1 }
              nextObjAddr := addr + 1 }, addr)
  else
    some ({ s1 with
            gio := { s1.gio with fontTexDataCleared := true, fontsTexID := addr }
            texObjects := updObj s1.texObjects addr { tex0 with mGPUTextureID := 1 }
            nextObjAddr := addr + 1 }, addr)

/-- `COpenGLIMGUIDriver::updateTexture(IGUITexture*, EColorFormat,
unsigned char*, unsigned int, unsigned int)`. -/
def updateTexture_raw (s : DriverState) (pGUITexture : Nat) (ColorFormat : EColorFormat)
    (pPixelData Width Height : Nat) : Option DriverState :=
  let tex := s.texObjects pGUITexture
  if tex.mIsValid then
    if updateRecreateNeeded tex .ETST_RAWDATA pPixelData then
      let d := if s.driverType ≠ .EDT_NULL then deleteTextureFromMemory s.gl tex else (s.gl, tex)
      let tex1 : CGUITexture :=
        { d.2 with
          mIsUsingOwnMemory := true
          mSourceType := .ETST_RAWDATA
          mSource := pPixelData
          mIsValid := true }
      if s.driverType ≠ .EDT_NULL then
        match createTextureIDFromRawData ColorFormat pPixelData Width Height s.heap d.1 with
        | none => none
        | some r =>
          some { s with
                 gl := r.2.2
                 heap := r.2.1
                 texObjects := updObj s.texObjects pGUITexture { tex1 with mGPUTextureID := r.1 } }
      else
        some { s with
               gl := d.1
               texObjects := updObj s.texObjects pGUITexture { tex1 with mGPUTextureID := 1 } }
    else some s
  else none

/-- `COpenGLIMGUIDriver::updateTexture(IGUITexture*, irr::video::ITexture*)`. -/
def updateTexture_itex (fast : Bool) (s : DriverState) (pGUITexture pTexture : Nat) :
    Option DriverState :=
  let tex := s.texObjects pGUITexture
  if tex.mIsValid then
    if updateRecreateNeeded tex .ETST_TEXTURE pTexture then
      let d := if s.driverType ≠ .EDT_NULL then deleteTextureFromMemory s.gl tex else (s.gl, tex)
      if fast then
        let tex1 : CGUITexture :=
          { d.2 with
            mIsUsingOwnMemory := false
            mSourceType := .ETST_TEXTURE
            mSource := pTexture
            mIsValid := true }
        if s.driverType ≠ .EDT_NULL then
          some { s with
                 gl := d.1
                 texObjects := updObj s.texObjects pGUITexture
                   { tex1 with mGPUTextureID := getTextureIDFromIrrlichtTexture (s.itexObjects pTexture) } }
        else
          some { s with
                 gl := d.1
                 texObjects := updObj s.texObjects pGUITexture { tex1 with mGPUTextureID := 1 } }
      else
        let tex1 : CGUITexture :=
          { d.2 with
            mIsUsingOwnMemory := true
            mSourceType := .ETST_TEXTURE
            mSource := pTexture
            mIsValid := true }
        if s.driverType ≠ .EDT_NULL then
          match copyTextureIDFromIrrlichtTexture (s.itexObjects pTexture) s.heap d.1 with
          | none => none
          | some r =>
            some { s with
                   gl := r.2.2
                   heap := r.2.1
                   texObjects := updObj s.texObjects pGUITexture { tex1 with mGPUTextureID := r.1 } }
        else
          some { s with
                 gl := d.1
                 texObjects := updObj s.texObjects pGUITexture { tex1 with mGPUTextureID := 1 } }
    else some s
  else none

/-- `COpenGLIMGUIDriver::updateTexture(IGUITexture*, irr::video::IImage*)`. -/
def updateTexture_img (s : DriverState) (pGUITexture pImage : Nat) : Option DriverState :=
  let tex := s.texObjects pGUITexture
  if tex.mIsValid then
    if updateRecreateNeeded tex .ETST_IMAGE pImage then
      let d := if s.driverType ≠ .EDT_NULL then deleteTextureFromMemory s.gl tex else (s.gl, tex)
      let tex1 : CGUITexture :=
        { d.2 with
          mIsUsingOwnMemory := true
          mSourceType := .ETST_IMAGE
          mSource := pImage
          mIsValid := true }
      if s.driverType ≠ .EDT_NULL then
        let r := copyTextureIDFromIrrlichtImage (s.imgObjects pImage) s.heap d.1
        some { s with
               gl := r.2.2
               heap := r.2.1
               texObjects := updObj s.texObjects pGUITexture { tex1 with mGPUTextureID := r.1 } }
      else
        some { s with
               gl := d.1
               texObjects := updObj s.texObjects pGUITexture { tex1 with mGPUTextureID := 1 } }
    else some s
  else none

/-- `COpenGLIMGUIDriver::updateFontTexture`: unconditionally releases the
old handle (`deleteTextureFromMemory` is called for every driver type),
rebuilds the font texture and re-publishes the wrapper address as
`Fonts->TexID`. -/
def updateFontTexture (s : DriverState) (pGUITexture : Nat) : Option DriverState :=
  let tex := s.texObjects pGUITexture
  if tex.mIsValid then
    let d := deleteTextureFromMemory s.gl tex
    let tex1 : CGUITexture :=
      { d.2 with
        mIsUsingOwnMemory := true
        mSourceType := .ETST_GUIFONT
        mSource := 0
        mIsValid := true }
    if s.driverType ≠ .EDT_NULL then
      match copyTextureIDFromGUIFont s.gio s.heap d.1 with
      | none => none
      | some r =>
        some { s with
               gl := r.2.2.2
               heap := r.2.2.1
               gio := { r.2.1 with fontsTexID := pGUITexture }
               texObjects := updObj s.texObjects pGUITexture { tex1 with mGPUTextureID := r.1 } }
    else
      some { s with
             gl := d.1
             gio := { s.gio with fontTexDataCleared := true, fontsTexID := pGUITexture }
             texObjects := updObj s.texObjects pGUITexture { tex1 with mGPUTextureID := 1 } }
  else none

/-- `COpenGLIMGUIDriver::deleteTexture`: releases the GPU handle (for
non-null drivers), destroys the wrapper and decrements the counter. -/
def deleteTexture (s : DriverState) (pGUITexture : Nat) : Option DriverState :=
  let tex := s.texObjects pGUITexture
  if tex.mIsValid then
    let d := if s.driverType ≠ .EDT_NULL then deleteTextureFromMemory s.gl tex else (s.gl, tex)
    some { s with
           gl := d.1
           texObjects := updObj s.texObjects pGUITexture d.2
           mTextureInstances := decU32 s.mTextureInstances }
  else none

/-! ### The draw path -/

/-- C-style `(int)` cast of a float value, truncating toward zero
(float arithmetic is modelled exactly over `ℚ`). -/
def cIntOfRat (q : ℚ) : Int := Int.tdiv q.num (Int.ofNat q.den)

/-- An ImGui `ImVec4` clip rectangle `(x, y, z, w)` = (left, top, right,
bottom) in top-left-origin coordinates. -/
structure ImVec4 where
  x : ℚ
  y : ℚ
  z : ℚ
  w : ℚ
deriving DecidableEq, Repr

/-- An ImGui `ImDrawCmd`: element count, clip rectangle, texture ID
(a pointer value) and the optional user callback (a function pointer;
`none` is the null pointer). -/
structure ImDrawCmd where
  elemCount : Nat
  clipRect : ImVec4
  textureId : Nat
  userCallback : Option Nat
deriving DecidableEq, Repr

/-- An ImGui `ImDrawList`: pointers to the vertex and index buffers and
the command buffer. -/
structure ImDrawList where
  vtxBuffer : Nat
  idxBuffer : Nat
  cmdBuffer : List ImDrawCmd
deriving DecidableEq, Repr

/-- An ImGui `ImDrawData`: the list of command lists. -/
structure ImDrawData where
  cmdLists : List ImDrawList
deriving DecidableEq, Repr

/-- The GL calls recorded while drawing. -/
inductive GLCall
  | bindTexture (name : Nat)
  | scissor (x y w h : Int)
  | drawElements (count : Nat) (firstIndex : Nat)
  | userCallback (cb : Nat)
deriving DecidableEq, Repr

/-- The calls issued for one `ImDrawCmd` inside
`COpenGLIMGUIDriver::drawCommandList`, given the framebuffer height and
the accumulated `FirstIndexElement`: a user callback if one is set,
otherwise bind the wrapper's GL handle, set the scissor box and draw
`ElemCount` indices starting at `FirstIndexElement`. -/
def cmdCalls (fbh : ℚ) (texMem : Nat → CGUITexture) (cmd : ImDrawCmd) (first : Nat) :
    List GLCall :=
  match cmd.userCallback with
  | some cb => [.userCallback cb]
  | none =>
    [.bindTexture (texMem cmd.textureId).mGPUTextureID,
     .scissor (cIntOfRat cmd.clipRect.x) (cIntOfRat (fbh - cmd.clipRect.w))
       (cIntOfRat (cmd.clipRect.z - cmd.clipRect.x))
       (cIntOfRat (cmd.clipRect.w - cmd.clipRect.y)),
     .drawElements cmd.elemCount first]

/-- GL state effect of one `ImDrawCmd` (a user callback is external code
and is modelled as having no effect on the tracked GL state). -/
def drawCmdState (fbh : ℚ) (texMem : Nat → CGUITexture) (cmd : ImDrawCmd) (gl : GLState) :
    GLState :=
  match cmd.userCallback with
  | some _ => gl
  | none =>
    { gl with
      boundTexture2D := (texMem cmd.textureId).mGPUTextureID
      scissorBox := (cIntOfRat cmd.clipRect.x, cIntOfRat (fbh - cmd.clipRect.w),
        cIntOfRat (cmd.clipRect.z - cmd.clipRect.x),
        cIntOfRat (cmd.clipRect.w - cmd.clipRect.y)) }

/-- The command loop of `COpenGLIMGUIDriver::drawCommandList`, threading
the GL state, the call trace and `FirstIndexElement`. -/
def drawCmdLoop (fbh : ℚ) (texMem : Nat → CGUITexture) :
    List ImDrawCmd → GLState × List GLCall × Nat → GLState × List GLCall × Nat
  | [], acc => acc
  | cmd :: rest, (gl, tr, first) =>
    drawCmdLoop fbh texMem rest
      (drawCmdState fbh texMem cmd gl, tr ++ cmdCalls fbh texMem cmd first,
       first + cmd.elemCount)

/-- `COpenGLIMGUIDriver::drawCommandList`: computes the framebuffer
height, sets the three client array pointers (`pos`, `uv` and `col` live
at byte offsets 0, 8 and 16 of `ImDrawVert`) and runs the command loop. -/
def drawCommandList (gio : ImGuiIOState) (texMem : Nat → CGUITexture) (l : ImDrawList)
    (gl : GLState) : GLState × List GLCall :=
  let fbh := gio.displaySizeY * gio.fbScaleY
  let gl0 := { gl with
               vertexPtr := l.vtxBuffer
               texCoordPtr := l.vtxBuffer + 8
               colorPtr := l.vtxBuffer + 16 }
  let r := drawCmdLoop fbh texMem l.cmdBuffer (gl0, [], 0)
  (r.1, r.2.1)

/-- ImGui `ImDrawData::ScaleClipRects`: multiplies every clip rectangle
componentwise by the framebuffer scale. -/
def scaleClipRects (sx sy : ℚ) (dd : ImDrawData) : ImDrawData :=
  ⟨dd.cmdLists.map (fun l =>
    { l with cmdBuffer := l.cmdBuffer.map (fun c =>
        { c with clipRect := ⟨c.clipRect.x * sx, c.clipRect.y * sy,
                              c.clipRect.z * sx, c.clipRect.w * sy⟩ }) })⟩

/-- The snapshot taken by `glPushAttrib(GL_ENABLE_BIT | GL_COLOR_BUFFER_BIT
| GL_TRANSFORM_BIT)`. -/
def attribSnapshot (gl : GLState) : GLAttribSnapshot :=
  ⟨gl.blend, gl.lighting, gl.cullFace, gl.depthTest, gl.scissorTest, gl.texture2D,
   gl.blendSrc, gl.blendDst, gl.matrixMode⟩

def glPushAttribOp (gl : GLState) : GLState :=
  { gl with attribStack := attribSnapshot gl :: gl.attribStack }

def glPopAttribOp (gl : GLState) : GLState :=
  match gl.attribStack with
  | [] => gl
  | a :: rest =>
    { gl with
      blend := a.blend
      lighting := a.lighting
      cullFace := a.cullFace
      depthTest := a.depthTest
      scissorTest := a.scissorTest
      texture2D := a.texture2D
      blendSrc := a.blendSrc
      blendDst := a.blendDst
      matrixMode := a.matrixMode
      attribStack := rest }

def glMatrixModeOp (gl : GLState) (m : GLMatrixMode) : GLState :=
  { gl with matrixMode := m }

def glPushMatrixOp (gl : GLState) : GLState :=
  match gl.matrixMode with
  | .projection => { gl with projStack := gl.projMatrix :: gl.projStack }
  | .modelview => { gl with modelviewStack := gl.modelviewMatrix :: gl.modelviewStack }

def glPopMatrixOp (gl : GLState) : GLState :=
  match gl.matrixMode with
  | .projection =>
    match gl.projStack with
    | [] => gl
    | m :: rest => { gl with projMatrix := m, projStack := rest }
  | .modelview =>
    match gl.modelviewStack with
    | [] => gl
    | m :: rest => { gl with modelviewMatrix := m, modelviewStack := rest }

def glLoadIdentityOp (gl : GLState) : GLState :=
  match gl.matrixMode with
  | .projection => { gl with projMatrix := .ident }
  | .modelview => { gl with modelviewMatrix := .ident }

def glOrthoOp (gl : GLState) (l r b t nv fv : ℚ) : GLState :=
  match gl.matrixMode with
  | .projection => { gl with projMatrix := .comp gl.projMatrix (.ortho l r b t nv fv) }
  | .modelview => { gl with modelviewMatrix := .comp gl.modelviewMatrix (.ortho l r b t nv fv) }

/-- The `OpenGLHelper::COpenGLState` constructor: reads the texture
binding, pushes the attribute groups and both matrix stacks. -/
def openGLStateSave (gl : GLState) : GLState :=
  glPushMatrixOp (glMatrixModeOp
    (glPushMatrixOp (glMatrixModeOp (glPushAttribOp gl) .projection)) .modelview)

/-- The `OpenGLHelper::COpenGLState` destructor: pops both matrix stacks,
pops the attribute groups and rebinds the saved texture (`oldTex`). -/
def openGLStateRestore (oldTex : Nat) (gl : GLState) : GLState :=
  glBindTexture2D
    (glPopAttribOp
      (glPopMatrixOp (glMatrixModeOp
        (glPopMatrixOp (glMatrixModeOp gl .modelview)) .projection)))
    oldTex

/-- The command-list loop of `COpenGLIMGUIDriver::drawGUIList`. -/
def drawListsLoop (gio : ImGuiIOState) (texMem : Nat → CGUITexture) :
    List ImDrawList → GLState × List GLCall → GLState × List GLCall
  | [], acc => acc
  | l :: rest, (gl, tr) =>
    let r := drawCommandList gio texMem l gl
    drawListsLoop gio texMem rest (r.1, tr ++ r.2)

/-- `COpenGLIMGUIDriver::drawGUIList`: saves the GL state, sets up
blending, scissoring, client arrays and the orthographic projection,
scales the clip rectangles, draws every command list in order, disables
the client arrays and restores the saved state. -/
def drawGUIList (gio : ImGuiIOState) (texMem : Nat → CGUITexture) (dd : ImDrawData)
    (gl : GLState) : GLState × List GLCall :=
  let oldTex := gl.boundTexture2D
  let g0 := openGLStateSave gl
  let g1 := { g0 with
              blend := true
              blendSrc := GL_SRC_ALPHA
              blendDst := GL_ONE_MINUS_SRC_ALPHA
              lighting := false
              cullFace := false
              depthTest := false
              scissorTest := true
              clientVertexArray := true
              clientTexCoordArray := true
              clientColorArray := true
              texture2D := true }
  let dd1 := scaleClipRects gio.fbScaleX gio.fbScaleY dd
  let g2 := glLoadIdentityOp (glMatrixModeOp g1 .projection)
  let g3 := glOrthoOp g2 0 gio.displaySizeX gio.displaySizeY 0 (-1) 1
  let g4 := glLoadIdentityOp (glMatrixModeOp g3 .modelview)
  let r := drawListsLoop gio texMem dd1.cmdLists (g4, [])
  let g5 := { r.1 with
              clientColorArray := false
              clientTexCoordArray := false
              clientVertexArray := false }
  (openGLStateRestore oldTex g5, r.2)

/-! ### C4: OpenGL state save and restore -/

/-- The GL state components that `drawCommandList` never touches. -/
structure GLCore where
  blend : Bool
  lighting : Bool
  cullFace : Bool
  depthTest : Bool
  scissorTest : Bool
  texture2D : Bool
  blendSrc : Nat
  blendDst : Nat
  matrixMode : GLMatrixMode
  projMatrix : GLMatrix
  projStack : List GLMatrix
  modelviewMatrix : GLMatrix
  modelviewStack : List GLMatrix
  attribStack : List GLAttribSnapshot
deriving DecidableEq, Repr

def glCore (gl : GLState) : GLCore :=
  ⟨gl.blend, gl.lighting, gl.cullFace, gl.depthTest, gl.scissorTest, gl.texture2D,
   gl.blendSrc, gl.blendDst, gl.matrixMode, gl.projMatrix, gl.projStack,
   gl.modelviewMatrix, gl.modelviewStack, gl.attribStack⟩

/-! ### C5, C6: the draw-command trace -/

/-- The trace of GL calls issued for a command buffer, starting with
accumulated index offset `n` (specification recursion mirroring the
`FirstIndexElement` accumulation of `drawCommandList`). -/
def tracesOf (fbh : ℚ) (tm : Nat → CGUITexture) : Nat → List ImDrawCmd → List GLCall
  | _, [] => []
  | n, c :: cs => cmdCalls fbh tm c n ++ tracesOf fbh tm (n + c.elemCount) cs

/-- Sum of `ElemCount` over the commands before index `i`. -/
def elemSumBefore (cmds : List ImDrawCmd) (i : Nat) : Nat :=
  ((cmds.take i).map (fun c => c.elemCount)).sum

/-- A texture memory for witnesses: every address holds a valid wrapper
with GL handle 42. -/
def tmA : Nat → CGUITexture := fun _ => ⟨true, .ETST_GUIFONT, 0, true, 42⟩

/-- A draw command with a user callback. -/
def cmdA : ImDrawCmd := ⟨3, ⟨0, 0, 4, 4⟩, 0, some 5⟩

/-- A draw command without a user callback. -/
def cmdB : ImDrawCmd := ⟨6, ⟨1, 2, 3, 4⟩, 0, none⟩

/-- A concrete ImGui IO block for witnesses. -/
def gioA : ImGuiIOState := ⟨100, 50, 1, 2, 0, 0, 4, 4, false⟩

/-- A concrete command list for witnesses. -/
def listA : ImDrawList := ⟨0, 0, [cmdA, cmdB]⟩

/-- A concrete draw data block for witnesses. -/
def ddA : ImDrawData := ⟨[listA]⟩

/-! ### C9: the font texture ID is the wrapper address -/

/-- A concrete Irrlicht texture object for witnesses. -/
def itexA : ITextureObj := ⟨2, 2, 8, 3, 4, fun _ => 0, 9⟩

/-- A concrete Irrlicht image object for witnesses. -/
def imgA : IImageObj := ⟨1, 1, fun _ _ => 0x11223344⟩

/-- A concrete valid raw-data wrapper for witnesses: owns its memory,
source pointer 100, GL handle 7. -/
def texA : CGUITexture := ⟨true, .ETST_RAWDATA, 100, true, 7⟩

/-- A concrete driver state (non-null video driver) for witnesses. -/
def sA : DriverState :=
  ⟨.EDT_OPENGL, 5, glA, heapA, gioA, fun _ => texA, fun _ => itexA, fun _ => imgA, 1000⟩

/-- A wrapper that borrows GPU memory (fast-handle ITexture wrapper). -/
def texD : CGUITexture := ⟨false, .ETST_TEXTURE, 200, true, 7⟩

/-- A driver state whose wrappers all borrow GPU memory. -/
def sD : DriverState :=
  ⟨.EDT_OPENGL, 5, glA, heapA, gioA, fun _ => texD, fun _ => itexA, fun _ => imgA, 1000⟩

/-! ### C7: assertions are the only failure mode -/

/-- A driver state holding an invalidated wrapper. -/
def texE : CGUITexture := ⟨true, .ETST_RAWDATA, 100, false, 7⟩

/-- A driver state whose wrappers are all invalid. -/
def sE : DriverState :=
  ⟨.EDT_OPENGL, 5, glA, heapA, gioA, fun _ => texE, fun _ => itexA, fun _ => imgA, 1000⟩

/-! ### C8: null-driver sentinel handles -/

/-- A wrapper created under the null driver: sentinel handle `0x1`. -/
def texN : CGUITexture := ⟨true, .ETST_RAWDATA, 100, true, 1⟩

/-- A driver state running on `EDT_NULL`. -/
def sN : DriverState :=
  ⟨.EDT_NULL, 5, glA, heapA, gioA, fun _ => texN, fun _ => itexA, fun _ => imgA, 1000⟩

/-! ### C10: the texture instance counter -/

/-- `drawGUIList` as an operation on the driver state: only the GL state
is affected. -/
def drawGUIListOp (s : DriverState) (dd : ImDrawData) : DriverState :=
  { s with gl := (drawGUIList s.gio s.texObjects dd s.gl).1 }

/-- One public driver operation. -/
inductive DriverOp
  | opCreateRaw (fmt : EColorFormat) (p W H : Nat)
  | opCreateITex (fast : Bool) (p : Nat)
  | opCreateImg (p : Nat)
  | opCreateFont
  | opUpdateRaw (addr : Nat) (fmt : EColorFormat) (p W H : Nat)
  | opUpdateITex (fast : Bool) (addr p : Nat)
  | opUpdateImg (addr p : Nat)
  | opUpdateFont (addr : Nat)
  | opDelete (addr : Nat)
  | opDraw (dd : ImDrawData)

/-- Run one operation (`none` = assertion failure aborts the program). -/
def applyOp (s : DriverState) : DriverOp → Option DriverState
  | .opCreateRaw fmt p W H => (createTexture_raw s fmt p W H).map (fun r => r.1)
  | .opCreateITex fast p => (createTexture_itex fast s p).map (fun r => r.1)
  | .opCreateImg p => (createTexture_img s p).map (fun r => r.1)
  | .opCreateFont => (createFontTexture s).map (fun r => r.1)
  | .opUpdateRaw addr fmt p W H => updateTexture_raw s addr fmt p W H
  | .opUpdateITex fast addr p => updateTexture_itex fast s addr p
  | .opUpdateImg addr p => updateTexture_img s addr p
  | .opUpdateFont addr => updateFontTexture s addr
  | .opDelete addr => deleteTexture s addr
  | .opDraw dd => some (drawGUIListOp s dd)

/-- Run a sequence of operations. -/
def applySeq (s : DriverState) : List DriverOp → Option DriverState
  | [] => some s
  | op :: rest =>
    match applyOp s op with
    | none => none
    | some s1 => applySeq s1 rest

def isCreateOp : DriverOp → Bool
  | .opCreateRaw _ _ _ _ => true
  | .opCreateITex _ _ => true
  | .opCreateImg _ => true
  | .opCreateFont => true
  | _ => false

def isDeleteOp : DriverOp → Bool
  | .opDelete _ => true
  | _ => false

def numCreates (ops : List DriverOp) : Nat := (ops.filter isCreateOp).length

def numDeletes (ops : List DriverOp) : Nat := (ops.filter isDeleteOp).length

/-- A driver state with a zero instance counter. -/
def sZ : DriverState :=
  ⟨.EDT_OPENGL, 0, glA, heapA, gioA, fun _ => texA, fun _ => itexA, fun _ => imgA, 1000⟩

/-- A concrete operation sequence: one create, one delete, one update. -/
def opsA : List DriverOp :=
  [.opCreateFont, .opDelete 1000, .opUpdateRaw 0 .ECF_A8 100 2 2]

/-! ### Theorems -/

/-! ### Properties of the ARGB to RGBA copy loop -/

theorem pixel_index_lt {W H X Y : Nat} (hX : X < W) (hY : Y < H) :
    X + Y * W < W * H := by
  calc X + Y * W < W + Y * W := by omega
    _ = (Y + 1) * W := by ring
    _ ≤ H * W := Nat.mul_le_mul_right W hY
    _ = W * H := Nat.mul_comm H W

theorem src_ne_cell {pSrc pDst W H i X Y : Nat}
    (disj : pSrc + W * H ≤ pDst ∨ pDst + W * H ≤ pSrc)
    (hi : i < W * H) (hX : X < W) (hY : Y < H) :
    pSrc + i ≠ pDst + (X + Y * W) := by
  have hlt := pixel_index_lt hX hY
  omega

theorem cell_ne_cell {W X Y X' Y' : Nat} (hX : X < W) (hX' : X' < W)
    (hne : X ≠ X') : X + Y * W ≠ X' + Y' * W := by
  intro hEq
  have h1 : (X + Y * W) % W = X := by
    rw [Nat.add_mul_mod_self_right]
    exact Nat.mod_eq_of_lt hX
  have h2 : (X' + Y' * W) % W = X' := by
    rw [Nat.add_mul_mod_self_right]
    exact Nat.mod_eq_of_lt hX'
  rw [hEq, h2] at h1
  exact hne h1.symm

theorem argbColLoop_notouch {pSrc pDst W X : Nat} (h : Nat) (m : Nat → Nat)
    {a : Nat} (ha : ∀ Y, Y < h → a ≠ pDst + (X + Y * W)) :
    argbColLoop pSrc pDst W X h m a = m a := by
  induction h with
  | zero => rfl
  | succ n ih =>
    show argbPixelWrite pSrc pDst W X n (argbColLoop pSrc pDst W X n m) a = m a
    rw [argbPixelWrite, writeWord]
    simp only [ha n (Nat.lt_succ_self n), if_false]
    exact ih (fun Y hY => ha Y (Nat.lt_succ_of_lt hY))

theorem argbColLoop_src {pSrc pDst W H X : Nat} (h : Nat) (m : Nat → Nat)
    (disj : pSrc + W * H ≤ pDst ∨ pDst + W * H ≤ pSrc)
    (hX : X < W) (hh : h ≤ H) {i : Nat} (hi : i < W * H) :
    argbColLoop pSrc pDst W X h m (pSrc + i) = m (pSrc + i) :=
  argbColLoop_notouch h m
    (fun Y hY => src_ne_cell disj hi hX (Nat.lt_of_lt_of_le hY hh))

theorem argbColLoop_hit {pSrc pDst W H X Y : Nat} (h : Nat) (m : Nat → Nat)
    (disj : pSrc + W * H ≤ pDst ∨ pDst + W * H ≤ pSrc)
    (hX : X < W) :
    Y < h → h ≤ H →
    argbColLoop pSrc pDst W X h m (pDst + (X + Y * W))
      = SColor_toOpenGLColor (SColor_setData_A8R8G8B8 (m (pSrc + (X + Y * W)))) := by
  induction h with
  | zero => omega
  | succ n ih =>
    intro hY hh
    have hW : 0 < W := Nat.lt_of_le_of_lt (Nat.zero_le X) hX
    show argbPixelWrite pSrc pDst W X n (argbColLoop pSrc pDst W X n m)
        (pDst + (X + Y * W))
      = SColor_toOpenGLColor (SColor_setData_A8R8G8B8 (m (pSrc + (X + Y * W))))
    rw [argbPixelWrite, writeWord]
    by_cases hYn : Y = n
    · subst hYn
      have hn : Y < H := Nat.lt_of_lt_of_le (Nat.lt_succ_self Y) hh
      rw [argbColLoop_src Y m disj hX (Nat.le_of_lt hn) (pixel_index_lt hX hn)]
      simp
    · have hcell : pDst + (X + Y * W) ≠ pDst + (X + n * W) := by
        intro hEq
        have : Y * W = n * W := by omega
        exact hYn (Nat.eq_of_mul_eq_mul_right hW this)
      simp only [hcell, if_false]
      exact ih (Nat.lt_of_le_of_ne (Nat.le_of_lt_succ hY) hYn) (Nat.le_of_succ_le hh)

theorem argbRowsLoop_notouch {pSrc pDst W H : Nat} (n : Nat) (m : Nat → Nat)
    {a : Nat} (ha : ∀ X Y, X < n → Y < H → a ≠ pDst + (X + Y * W)) :
    argbRowsLoop pSrc pDst W H n m a = m a := by
  induction n with
  | zero => rfl
  | succ k ih =>
    show argbColLoop pSrc pDst W k H (argbRowsLoop pSrc pDst W H k m) a = m a
    rw [argbColLoop_notouch H _ (fun Y hY => ha k Y (Nat.lt_succ_self k) hY)]
    exact ih (fun X Y hX hY => ha X Y (Nat.lt_succ_of_lt hX) hY)

theorem argbRowsLoop_src {pSrc pDst W H : Nat} (n : Nat) (m : Nat → Nat)
    (disj : pSrc + W * H ≤ pDst ∨ pDst + W * H ≤ pSrc)
    (hn : n ≤ W) {i : Nat} (hi : i < W * H) :
    argbRowsLoop pSrc pDst W H n m (pSrc + i) = m (pSrc + i) :=
  argbRowsLoop_notouch n m
    (fun X Y hX hY => src_ne_cell disj hi (Nat.lt_of_lt_of_le hX hn) hY)

theorem argbRowsLoop_hit {pSrc pDst W H X Y : Nat} (n : Nat) (m : Nat → Nat)
    (disj : pSrc + W * H ≤ pDst ∨ pDst + W * H ≤ pSrc)
    (hY : Y < H) :
    X < n → n ≤ W →
    argbRowsLoop pSrc pDst W H n m (pDst + (X + Y * W))
      = SColor_toOpenGLColor (SColor_setData_A8R8G8B8 (m (pSrc + (X + Y * W)))) := by
  induction n with
  | zero => omega
  | succ k ih =>
    intro hX hn
    show argbColLoop pSrc pDst W k H (argbRowsLoop pSrc pDst W H k m)
        (pDst + (X + Y * W))
      = SColor_toOpenGLColor (SColor_setData_A8R8G8B8 (m (pSrc + (X + Y * W))))
    by_cases hXk : X = k
    · subst hXk
      rw [argbColLoop_hit H _ disj (Nat.lt_of_lt_of_le (Nat.lt_succ_self X) hn) hY (le_refl H)]
      rw [argbRowsLoop_src X m disj (Nat.le_of_succ_le hn)
        (pixel_index_lt (Nat.lt_of_lt_of_le (Nat.lt_succ_self X) hn) hY)]
    · have hXlt : X < W := Nat.lt_of_lt_of_le hX hn
      have hklt : k < W := Nat.lt_of_lt_of_le (Nat.lt_succ_self k) hn
      rw [argbColLoop_notouch H _
        (fun Y' hY' => by
          intro hEq
          exact cell_ne_cell hXlt hklt hXk (Nat.add_left_cancel hEq))]
      exact ih (Nat.lt_of_le_of_ne (Nat.le_of_lt_succ hX) hXk) (Nat.le_of_succ_le hn)

theorem copyARGB_spec {pSrc pDst W H X Y : Nat} (m : Nat → Nat)
    (disj : pSrc + W * H ≤ pDst ∨ pDst + W * H ≤ pSrc)
    (hX : X < W) (hY : Y < H) :
    copyARGBImageToRGBA pSrc pDst W H m (pDst + (X + Y * W))
      = SColor_toOpenGLColor (SColor_setData_A8R8G8B8 (m (pSrc + (X + Y * W)))) :=
  argbRowsLoop_hit W m disj hY hX (le_refl W)

theorem copyARGB_src {pSrc pDst W H : Nat} (m : Nat → Nat)
    (disj : pSrc + W * H ≤ pDst ∨ pDst + W * H ≤ pSrc)
    {i : Nat} (hi : i < W * H) :
    copyARGBImageToRGBA pSrc pDst W H m (pSrc + i) = m (pSrc + i) :=
  argbRowsLoop_src W m disj (le_refl W) hi

/-! ### C2: pixel-format conversion -/

theorem createRawData_ARGB_spec (pSrc W H : Nat) (h : CppHeap) (gl : GLState)
    (hs : pSrc + W * H ≤ h.nextFree) :
    ∃ t h' gl',
      createTextureIDFromRawData .ECF_A8R8G8B8 pSrc W H h gl = some (t, h', gl')
      ∧ h'.allocs = h.allocs
      ∧ h'.nextFree = h.nextFree + W * H
      ∧ (∀ i, i < W * H → h'.mem (pSrc + i) = h.mem (pSrc + i))
      ∧ (∀ X Y, X < W → Y < H →
          h'.mem (h.nextFree + (X + Y * W))
            = SColor_toOpenGLColor (SColor_setData_A8R8G8B8 (h.mem (pSrc + (X + Y * W)))))
      ∧ t = gl.nextTextureName
      ∧ gl'.liveTextures = gl.nextTextureName :: gl.liveTextures
      ∧ gl'.boundTexture2D = gl.boundTexture2D
      ∧ gl'.nextTextureName = gl.nextTextureName + 1
      ∧ gl'.uploads = ⟨gl.nextTextureName, GL_RGBA, h.nextFree, W, H⟩ :: gl.uploads := by
  refine ⟨_, _, _, rfl, ?_, rfl, ?_, ?_, rfl, rfl, rfl, rfl, rfl⟩
  · show (CppHeap.freeBlock _ _).allocs = h.allocs
    simp [CppHeap.freeBlock, CppHeap.allocWords, List.eraseP_cons_of_pos]
  · intro i hi
    exact copyARGB_src h.mem (Or.inl hs) hi
  · intro X Y hX hY
    exact copyARGB_spec h.mem (Or.inl hs) hX hY

/-- C2: for every pixel position `(X, Y)` inside the image,
`copyARGBImageToRGBA` writes into the destination word at index
`X + Y*Width` the four bytes R (source bits 16-23), G (bits 8-15),
B (bits 0-7), A (bits 24-31) of the A8R8G8B8 source word at the same
index; and `createTextureIDFromRawData` with `ECF_A8R8G8B8` performs this
conversion into a freshly allocated buffer of `Width*Height` words that is
freed before returning (the live-allocation list is restored), leaving the
caller's source pixel buffer unchanged. -/
theorem C2_pixel_conversion :
    (∀ pSrc pDst W H X Y (m : Nat → Nat),
      (pSrc + W * H ≤ pDst ∨ pDst + W * H ≤ pSrc) → X < W → Y < H →
      copyARGBImageToRGBA pSrc pDst W H m (pDst + (X + Y * W))
        = packRGBAWordLE
            (SColor_getRed (SColor_setData_A8R8G8B8 (m (pSrc + (X + Y * W)))))
            (SColor_getGreen (SColor_setData_A8R8G8B8 (m (pSrc + (X + Y * W)))))
            (SColor_getBlue (SColor_setData_A8R8G8B8 (m (pSrc + (X + Y * W)))))
            (SColor_getAlpha (SColor_setData_A8R8G8B8 (m (pSrc + (X + Y * W))))))
    ∧
    (∀ pSrc W H h gl, pSrc + W * H ≤ CppHeap.nextFree h →
      ∃ t h' gl',
        createTextureIDFromRawData .ECF_A8R8G8B8 pSrc W H h gl = some (t, h', gl')
        ∧ CppHeap.allocs h' = CppHeap.allocs h
        ∧ (∀ i, i < W * H → CppHeap.mem h' (pSrc + i) = CppHeap.mem h (pSrc + i))
        ∧ (∀ X Y, X < W → Y < H →
            CppHeap.mem h' (CppHeap.nextFree h + (X + Y * W))
              = SColor_toOpenGLColor
                  (SColor_setData_A8R8G8B8 (CppHeap.mem h (pSrc + (X + Y * W)))))
        ∧ GLState.uploads gl'
            = ⟨GLState.nextTextureName gl, GL_RGBA, CppHeap.nextFree h, W, H⟩
                :: GLState.uploads gl) := by
  constructor
  · intro pSrc pDst W H X Y m disj hX hY
    exact copyARGB_spec m disj hX hY
  · intro pSrc W H h gl hs
    obtain ⟨t, h', gl', heq, ha, _, hsrc, hcv, _, _, _, _, hup⟩ :=
      createRawData_ARGB_spec pSrc W H h gl hs
    exact ⟨t, h', gl', heq, ha, hsrc, hcv, hup⟩

theorem C2_pixel_conversion_witness :
    (copyARGBImageToRGBA 0 1 1 1 memA (1 + (0 + 0 * 1))
      = packRGBAWordLE
          (SColor_getRed (SColor_setData_A8R8G8B8 (memA (0 + (0 + 0 * 1)))))
          (SColor_getGreen (SColor_setData_A8R8G8B8 (memA (0 + (0 + 0 * 1)))))
          (SColor_getBlue (SColor_setData_A8R8G8B8 (memA (0 + (0 + 0 * 1)))))
          (SColor_getAlpha (SColor_setData_A8R8G8B8 (memA (0 + (0 + 0 * 1))))))
    ∧
    (∃ t h' gl',
      createTextureIDFromRawData .ECF_A8R8G8B8 0 1 1 heapA glA = some (t, h', gl')
      ∧ CppHeap.allocs h' = CppHeap.allocs heapA
      ∧ (∀ i, i < 1 * 1 → CppHeap.mem h' (0 + i) = CppHeap.mem heapA (0 + i))
      ∧ (∀ X Y, X < 1 → Y < 1 →
          CppHeap.mem h' (CppHeap.nextFree heapA + (X + Y * 1))
            = SColor_toOpenGLColor
                (SColor_setData_A8R8G8B8 (CppHeap.mem heapA (0 + (X + Y * 1)))))
      ∧ GLState.uploads gl'
          = ⟨GLState.nextTextureName glA, GL_RGBA, CppHeap.nextFree heapA, 1, 1⟩
              :: GLState.uploads glA) :=
  ⟨C2_pixel_conversion.1 0 1 1 1 0 0 memA (Or.inl (by decide)) (by decide) (by decide),
   C2_pixel_conversion.2 0 1 1 heapA glA (by decide)⟩

theorem drawCmdState_core (fbh : ℚ) (tm : Nat → CGUITexture) (cmd : ImDrawCmd)
    (gl : GLState) : glCore (drawCmdState fbh tm cmd gl) = glCore gl := by
  rcases h : cmd.userCallback with _ | cb <;> simp [drawCmdState, h, glCore]

theorem drawCmdLoop_core (fbh : ℚ) (tm : Nat → CGUITexture) (cmds : List ImDrawCmd) :
    ∀ acc : GLState × List GLCall × Nat,
      glCore (drawCmdLoop fbh tm cmds acc).1 = glCore acc.1 := by
  induction cmds with
  | nil => intro acc; rfl
  | cons c rest ih =>
    intro acc
    obtain ⟨gl, tr, first⟩ := acc
    show glCore (drawCmdLoop fbh tm rest
      (drawCmdState fbh tm c gl, tr ++ cmdCalls fbh tm c first, first + c.elemCount)).1
      = glCore gl
    rw [ih]
    exact drawCmdState_core fbh tm c gl

theorem drawCommandList_core (gio : ImGuiIOState) (tm : Nat → CGUITexture)
    (l : ImDrawList) (gl : GLState) :
    glCore (drawCommandList gio tm l gl).1 = glCore gl := by
  show glCore (drawCmdLoop _ tm l.cmdBuffer
    ({ gl with vertexPtr := l.vtxBuffer, texCoordPtr := l.vtxBuffer + 8,
               colorPtr := l.vtxBuffer + 16 }, [], 0)).1 = glCore gl
  rw [drawCmdLoop_core]
  rfl

theorem drawListsLoop_core (gio : ImGuiIOState) (tm : Nat → CGUITexture)
    (ls : List ImDrawList) :
    ∀ acc : GLState × List GLCall,
      glCore (drawListsLoop gio tm ls acc).1 = glCore acc.1 := by
  induction ls with
  | nil => intro acc; rfl
  | cons l rest ih =>
    intro acc
    obtain ⟨gl, tr⟩ := acc
    show glCore (drawListsLoop gio tm rest
      ((drawCommandList gio tm l gl).1, tr ++ (drawCommandList gio tm l gl).2)).1 = glCore gl
    rw [ih]
    exact drawCommandList_core gio tm l gl

theorem openGLStateRestore_spec (gl0 s : GLState)
    (hmv : s.modelviewStack = gl0.modelviewMatrix :: gl0.modelviewStack)
    (hpj : s.projStack = gl0.projMatrix :: gl0.projStack)
    (hat : s.attribStack = attribSnapshot gl0 :: gl0.attribStack) :
    (openGLStateRestore gl0.boundTexture2D s).boundTexture2D = gl0.boundTexture2D
    ∧ (openGLStateRestore gl0.boundTexture2D s).blend = gl0.blend
    ∧ (openGLStateRestore gl0.boundTexture2D s).lighting = gl0.lighting
    ∧ (openGLStateRestore gl0.boundTexture2D s).cullFace = gl0.cullFace
    ∧ (openGLStateRestore gl0.boundTexture2D s).depthTest = gl0.depthTest
    ∧ (openGLStateRestore gl0.boundTexture2D s).scissorTest = gl0.scissorTest
    ∧ (openGLStateRestore gl0.boundTexture2D s).texture2D = gl0.texture2D
    ∧ (openGLStateRestore gl0.boundTexture2D s).blendSrc = gl0.blendSrc
    ∧ (openGLStateRestore gl0.boundTexture2D s).blendDst = gl0.blendDst
    ∧ (openGLStateRestore gl0.boundTexture2D s).matrixMode = gl0.matrixMode
    ∧ (openGLStateRestore gl0.boundTexture2D s).projMatrix = gl0.projMatrix
    ∧ (openGLStateRestore gl0.boundTexture2D s).projStack = gl0.projStack
    ∧ (openGLStateRestore gl0.boundTexture2D s).modelviewMatrix = gl0.modelviewMatrix
    ∧ (openGLStateRestore gl0.boundTexture2D s).modelviewStack = gl0.modelviewStack
    ∧ (openGLStateRestore gl0.boundTexture2D s).attribStack = gl0.attribStack := by
  unfold openGLStateRestore glMatrixModeOp glPopMatrixOp glPopAttribOp glBindTexture2D
  simp [hmv, hpj, hat, attribSnapshot]

theorem restore_after_loop (gio : ImGuiIOState) (tm : Nat → CGUITexture)
    (ls : List ImDrawList) (gl0 mid : GLState)
    (hmv : mid.modelviewStack = gl0.modelviewMatrix :: gl0.modelviewStack)
    (hpj : mid.projStack = gl0.projMatrix :: gl0.projStack)
    (hat : mid.attribStack = attribSnapshot gl0 :: gl0.attribStack) :
    (openGLStateRestore gl0.boundTexture2D
      { (drawListsLoop gio tm ls (mid, [])).1 with
        clientColorArray := false
        clientTexCoordArray := false
        clientVertexArray := false }).boundTexture2D = gl0.boundTexture2D
    ∧ (openGLStateRestore gl0.boundTexture2D
      { (drawListsLoop gio tm ls (mid, [])).1 with
        clientColorArray := false
        clientTexCoordArray := false
        clientVertexArray := false }).blend = gl0.blend
    ∧ (openGLStateRestore gl0.boundTexture2D
      { (drawListsLoop gio tm ls (mid, [])).1 with
        clientColorArray := false
        clientTexCoordArray := false
        clientVertexArray := false }).lighting = gl0.lighting
    ∧ (openGLStateRestore gl0.boundTexture2D
      { (drawListsLoop gio tm ls (mid, [])).1 with
        clientColorArray := false
        clientTexCoordArray := false
        clientVertexArray := false }).cullFace = gl0.cullFace
    ∧ (openGLStateRestore gl0.boundTexture2D
      { (drawListsLoop gio tm ls (mid, [])).1 with
        clientColorArray := false
        clientTexCoordArray := false
        clientVertexArray := false }).depthTest = gl0.depthTest
    ∧ (openGLStateRestore gl0.boundTexture2D
      { (drawListsLoop gio tm ls (mid, [])).1 with
        clientColorArray := false
        clientTexCoordArray := false
        clientVertexArray := false }).scissorTest = gl0.scissorTest
    ∧ (openGLStateRestore gl0.boundTexture2D
      { (drawListsLoop gio tm ls (mid, [])).1 with
        clientColorArray := false
        clientTexCoordArray := false
        clientVertexArray := false }).texture2D = gl0.texture2D
    ∧ (openGLStateRestore gl0.boundTexture2D
      { (drawListsLoop gio tm ls (mid, [])).1 with
        clientColorArray := false
        clientTexCoordArray := false
        clientVertexArray := false }).blendSrc = gl0.blendSrc
    ∧ (openGLStateRestore gl0.boundTexture2D
      { (drawListsLoop gio tm ls (mid, [])).1 with
        clientColorArray := false
        clientTexCoordArray := false
        clientVertexArray := false }).blendDst = gl0.blendDst
    ∧ (openGLStateRestore gl0.boundTexture2D
      { (drawListsLoop gio tm ls (mid, [])).1 with
        clientColorArray := false
        clientTexCoordArray := false
        clientVertexArray := false }).matrixMode = gl0.matrixMode
    ∧ (openGLStateRestore gl0.boundTexture2D
      { (drawListsLoop gio tm ls (mid, [])).1 with
        clientColorArray := false
        clientTexCoordArray := false
        clientVertexArray := false }).projMatrix = gl0.projMatrix
    ∧ (openGLStateRestore gl0.boundTexture2D
      { (drawListsLoop gio tm ls (mid, [])).1 with
        clientColorArray := false
        clientTexCoordArray := false
        clientVertexArray := false }).projStack = gl0.projStack
    ∧ (openGLStateRestore gl0.boundTexture2D
      { (drawListsLoop gio tm ls (mid, [])).1 with
        clientColorArray := false
        clientTexCoordArray := false
        clientVertexArray := false }).modelviewMatrix = gl0.modelviewMatrix
    ∧ (openGLStateRestore gl0.boundTexture2D
      { (drawListsLoop gio tm ls (mid, [])).1 with
        clientColorArray := false
        clientTexCoordArray := false
        clientVertexArray := false }).modelviewStack = gl0.modelviewStack
    ∧ (openGLStateRestore gl0.boundTexture2D
      { (drawListsLoop gio tm ls (mid, [])).1 with
        clientColorArray := false
        clientTexCoordArray := false
        clientVertexArray := false }).attribStack = gl0.attribStack := by
  have hcore := drawListsLoop_core gio tm ls (mid, [])
  have h1 : (drawListsLoop gio tm ls (mid, [])).1.modelviewStack
      = gl0.modelviewMatrix :: gl0.modelviewStack :=
    (congrArg GLCore.modelviewStack hcore).trans hmv
  have h2 : (drawListsLoop gio tm ls (mid, [])).1.projStack
      = gl0.projMatrix :: gl0.projStack :=
    (congrArg GLCore.projStack hcore).trans hpj
  have h3 : (drawListsLoop gio tm ls (mid, [])).1.attribStack
      = attribSnapshot gl0 :: gl0.attribStack :=
    (congrArg GLCore.attribStack hcore).trans hat
  exact openGLStateRestore_spec gl0 _ h1 h2 h3

/-- C4: `drawGUIList` saves the bound 2D texture, the
enable/color-buffer/transform attribute groups, the projection matrix and
the modelview matrix on entry and restores each of them on exit, so after
it returns every saved component of the OpenGL state equals its value
before the call, for every draw data. -/
theorem C4_drawGUIList_restores_state (gio : ImGuiIOState) (tm : Nat → CGUITexture)
    (dd : ImDrawData) (gl : GLState) :
    (drawGUIList gio tm dd gl).1.boundTexture2D = gl.boundTexture2D
    ∧ (drawGUIList gio tm dd gl).1.blend = gl.blend
    ∧ (drawGUIList gio tm dd gl).1.lighting = gl.lighting
    ∧ (drawGUIList gio tm dd gl).1.cullFace = gl.cullFace
    ∧ (drawGUIList gio tm dd gl).1.depthTest = gl.depthTest
    ∧ (drawGUIList gio tm dd gl).1.scissorTest = gl.scissorTest
    ∧ (drawGUIList gio tm dd gl).1.texture2D = gl.texture2D
    ∧ (drawGUIList gio tm dd gl).1.blendSrc = gl.blendSrc
    ∧ (drawGUIList gio tm dd gl).1.blendDst = gl.blendDst
    ∧ (drawGUIList gio tm dd gl).1.matrixMode = gl.matrixMode
    ∧ (drawGUIList gio tm dd gl).1.projMatrix = gl.projMatrix
    ∧ (drawGUIList gio tm dd gl).1.projStack = gl.projStack
    ∧ (drawGUIList gio tm dd gl).1.modelviewMatrix = gl.modelviewMatrix
    ∧ (drawGUIList gio tm dd gl).1.modelviewStack = gl.modelviewStack
    ∧ (drawGUIList gio tm dd gl).1.attribStack = gl.attribStack := by
  simp only [drawGUIList]
  exact restore_after_loop gio tm _ gl _ rfl rfl rfl

theorem drawCmdLoop_trace (fbh : ℚ) (tm : Nat → CGUITexture) (cmds : List ImDrawCmd) :
    ∀ (gl : GLState) (tr : List GLCall) (first : Nat),
      (drawCmdLoop fbh tm cmds (gl, tr, first)).2.1 = tr ++ tracesOf fbh tm first cmds := by
  induction cmds with
  | nil => intro gl tr first; simp [drawCmdLoop, tracesOf]
  | cons c rest ih =>
    intro gl tr first
    show (drawCmdLoop fbh tm rest
      (drawCmdState fbh tm c gl, tr ++ cmdCalls fbh tm c first, first + c.elemCount)).2.1
      = tr ++ tracesOf fbh tm first (c :: rest)
    rw [ih]
    simp [tracesOf]

theorem drawCommandList_trace (gio : ImGuiIOState) (tm : Nat → CGUITexture)
    (l : ImDrawList) (gl : GLState) :
    (drawCommandList gio tm l gl).2
      = tracesOf (gio.displaySizeY * gio.fbScaleY) tm 0 l.cmdBuffer := by
  show (drawCmdLoop _ tm l.cmdBuffer (_, [], 0)).2.1 = _
  rw [drawCmdLoop_trace]
  simp

theorem drawListsLoop_trace (gio : ImGuiIOState) (tm : Nat → CGUITexture)
    (ls : List ImDrawList) :
    ∀ (gl : GLState) (tr : List GLCall),
      (drawListsLoop gio tm ls (gl, tr)).2
        = tr ++ (ls.map (fun l =>
            tracesOf (gio.displaySizeY * gio.fbScaleY) tm 0 l.cmdBuffer)).flatten := by
  induction ls with
  | nil => intro gl tr; simp [drawListsLoop]
  | cons l rest ih =>
    intro gl tr
    show (drawListsLoop gio tm rest
      ((drawCommandList gio tm l gl).1, tr ++ (drawCommandList gio tm l gl).2)).2 = _
    rw [ih, drawCommandList_trace]
    simp

theorem drawGUIList_trace (gio : ImGuiIOState) (tm : Nat → CGUITexture)
    (dd : ImDrawData) (gl : GLState) :
    (drawGUIList gio tm dd gl).2
      = ((scaleClipRects gio.fbScaleX gio.fbScaleY dd).cmdLists.map (fun l =>
          tracesOf (gio.displaySizeY * gio.fbScaleY) tm 0 l.cmdBuffer)).flatten := by
  show (drawListsLoop gio tm (scaleClipRects gio.fbScaleX gio.fbScaleY dd).cmdLists
    (_, [])).2 = _
  rw [drawListsLoop_trace]
  simp

theorem tracesOf_decomp (fbh : ℚ) (tm : Nat → CGUITexture) :
    ∀ (i : Nat) (cmds : List ImDrawCmd) (n : Nat) (hi : i < cmds.length),
      tracesOf fbh tm n cmds
        = tracesOf fbh tm n (cmds.take i)
          ++ cmdCalls fbh tm (cmds.get ⟨i, hi⟩) (n + elemSumBefore cmds i)
          ++ tracesOf fbh tm
              (n + elemSumBefore cmds i + (cmds.get ⟨i, hi⟩).elemCount)
              (cmds.drop (i + 1)) := by
  intro i
  induction i with
  | zero =>
    intro cmds n hi
    match cmds with
    | c :: cs => simp [tracesOf, elemSumBefore]
  | succ j ih =>
    intro cmds n hi
    match cmds with
    | c :: cs =>
      have hj : j < cs.length := Nat.lt_of_succ_lt_succ hi
      have hrec := ih cs (n + c.elemCount) hj
      show cmdCalls fbh tm c n ++ tracesOf fbh tm (n + c.elemCount) cs = _
      rw [hrec]
      simp [tracesOf, elemSumBefore, Nat.add_assoc]

/-- C5: `drawCommandList` processes the command buffer in order; a
command with a null `UserCallback` issues exactly one `glDrawElements`
drawing its `ElemCount` indices at an index offset equal to the sum of
`ElemCount` over all earlier commands (callback commands included in the
sum), a command with a callback invokes the callback instead; and
`drawGUIList` draws every command list of the draw data in order. -/
theorem C5_draw_command_translation :
    (∀ (gio : ImGuiIOState) (tm : Nat → CGUITexture) (l : ImDrawList) (gl : GLState),
      (drawCommandList gio tm l gl).2
        = tracesOf (gio.displaySizeY * gio.fbScaleY) tm 0 l.cmdBuffer)
    ∧
    (∀ (i : Nat) (cmds : List ImDrawCmd) (n : Nat) (hi : i < cmds.length)
        (fbh : ℚ) (tm : Nat → CGUITexture),
      tracesOf fbh tm n cmds
        = tracesOf fbh tm n (cmds.take i)
          ++ cmdCalls fbh tm (cmds.get ⟨i, hi⟩) (n + elemSumBefore cmds i)
          ++ tracesOf fbh tm
              (n + elemSumBefore cmds i + (cmds.get ⟨i, hi⟩).elemCount)
              (cmds.drop (i + 1)))
    ∧
    (∀ (fbh : ℚ) (tm : Nat → CGUITexture) (c : ImDrawCmd) (first : Nat),
      c.userCallback = none →
      cmdCalls fbh tm c first
        = [.bindTexture (tm c.textureId).mGPUTextureID,
           .scissor (cIntOfRat c.clipRect.x) (cIntOfRat (fbh - c.clipRect.w))
             (cIntOfRat (c.clipRect.z - c.clipRect.x))
             (cIntOfRat (c.clipRect.w - c.clipRect.y)),
           .drawElements c.elemCount first])
    ∧
    (∀ (fbh : ℚ) (tm : Nat → CGUITexture) (c : ImDrawCmd) (first : Nat) (cb : Nat),
      c.userCallback = some cb →
      cmdCalls fbh tm c first = [.userCallback cb])
    ∧
    (∀ (gio : ImGuiIOState) (tm : Nat → CGUITexture) (dd : ImDrawData) (gl : GLState),
      (drawGUIList gio tm dd gl).2
        = ((scaleClipRects gio.fbScaleX gio.fbScaleY dd).cmdLists.map (fun l =>
            tracesOf (gio.displaySizeY * gio.fbScaleY) tm 0 l.cmdBuffer)).flatten) := by
  refine ⟨drawCommandList_trace, ?_, ?_, ?_, drawGUIList_trace⟩
  · intro i cmds n hi fbh tm
    exact tracesOf_decomp fbh tm i cmds n hi
  · intro fbh tm c first hc
    simp [cmdCalls, hc]
  · intro fbh tm c first cb hc
    simp [cmdCalls, hc]

theorem C5_draw_command_translation_witness :
    (tracesOf 10 tmA 0 [cmdA, cmdB]
      = tracesOf 10 tmA 0 ([cmdA, cmdB].take 1)
        ++ cmdCalls 10 tmA ([cmdA, cmdB].get ⟨1, by decide⟩)
            (0 + elemSumBefore [cmdA, cmdB] 1)
        ++ tracesOf 10 tmA
            (0 + elemSumBefore [cmdA, cmdB] 1
              + (([cmdA, cmdB].get ⟨1, by decide⟩)).elemCount)
            ([cmdA, cmdB].drop 2))
    ∧ (cmdCalls 10 tmA cmdB 3
        = [.bindTexture (tmA cmdB.textureId).mGPUTextureID,
           .scissor (cIntOfRat cmdB.clipRect.x) (cIntOfRat (10 - cmdB.clipRect.w))
             (cIntOfRat (cmdB.clipRect.z - cmdB.clipRect.x))
             (cIntOfRat (cmdB.clipRect.w - cmdB.clipRect.y)),
           .drawElements cmdB.elemCount 3])
    ∧ cmdCalls 10 tmA cmdA 0 = [.userCallback 5] :=
  ⟨C5_draw_command_translation.2.1 1 [cmdA, cmdB] 0 (by decide) 10 tmA,
   C5_draw_command_translation.2.2.1 10 tmA cmdB 3 rfl,
   C5_draw_command_translation.2.2.2.1 10 tmA cmdA 0 5 rfl⟩

theorem scissor_mem_tracesOf (fbh : ℚ) (tm : Nat → CGUITexture) :
    ∀ (cs : List ImDrawCmd) (n : Nat) (c : ImDrawCmd), c ∈ cs →
      c.userCallback = none →
      GLCall.scissor (cIntOfRat c.clipRect.x) (cIntOfRat (fbh - c.clipRect.w))
        (cIntOfRat (c.clipRect.z - c.clipRect.x))
        (cIntOfRat (c.clipRect.w - c.clipRect.y)) ∈ tracesOf fbh tm n cs := by
  intro cs
  induction cs with
  | nil => intro n c hc; cases hc
  | cons d rest ih =>
    intro n c hc hcb
    rcases List.mem_cons.mp hc with h | h
    · subst h
      show _ ∈ cmdCalls fbh tm c n ++ tracesOf fbh tm (n + c.elemCount) rest
      refine List.mem_append_left _ ?_
      simp [cmdCalls, hcb]
    · show _ ∈ cmdCalls fbh tm d n ++ tracesOf fbh tm (n + d.elemCount) rest
      exact List.mem_append_right _ (ih (n + d.elemCount) c h hcb)

/-- C6: for a draw command with clip rectangle `(x, y, z, w)` (after the
clip rectangles are scaled by the display framebuffer scale), the renderer
sets the scissor box to lower-left corner
`(x, FrameBufferHeight - w)`, width `z - x` and height `w - y`, where
`FrameBufferHeight = DisplaySize.y * DisplayFramebufferScale.y`. -/
theorem C6_scissor_box :
    (∀ (fbh : ℚ) (tm : Nat → CGUITexture) (gl : GLState) (c : ImDrawCmd),
      c.userCallback = none →
      (drawCmdState fbh tm c gl).scissorBox
        = (cIntOfRat c.clipRect.x, cIntOfRat (fbh - c.clipRect.w),
           cIntOfRat (c.clipRect.z - c.clipRect.x),
           cIntOfRat (c.clipRect.w - c.clipRect.y)))
    ∧
    (∀ (gio : ImGuiIOState) (tm : Nat → CGUITexture) (dd : ImDrawData) (gl : GLState)
        (l : ImDrawList) (c : ImDrawCmd),
      l ∈ dd.cmdLists → c ∈ l.cmdBuffer → c.userCallback = none →
      GLCall.scissor (cIntOfRat (c.clipRect.x * gio.fbScaleX))
        (cIntOfRat (gio.displaySizeY * gio.fbScaleY - c.clipRect.w * gio.fbScaleY))
        (cIntOfRat (c.clipRect.z * gio.fbScaleX - c.clipRect.x * gio.fbScaleX))
        (cIntOfRat (c.clipRect.w * gio.fbScaleY - c.clipRect.y * gio.fbScaleY))
        ∈ (drawGUIList gio tm dd gl).2) := by
  constructor
  · intro fbh tm gl c hc
    simp [drawCmdState, hc]
  · intro gio tm dd gl l c hl hc hcb
    rw [drawGUIList_trace]
    refine List.mem_flatten.mpr ⟨tracesOf (gio.displaySizeY * gio.fbScaleY) tm 0
      (l.cmdBuffer.map (fun c => { c with clipRect := ⟨c.clipRect.x * gio.fbScaleX,
        c.clipRect.y * gio.fbScaleY, c.clipRect.z * gio.fbScaleX,
        c.clipRect.w * gio.fbScaleY⟩ })), ?_, ?_⟩
    · refine List.mem_map.mpr ⟨{ l with cmdBuffer := l.cmdBuffer.map (fun c =>
        { c with clipRect := ⟨c.clipRect.x * gio.fbScaleX, c.clipRect.y * gio.fbScaleY,
          c.clipRect.z * gio.fbScaleX, c.clipRect.w * gio.fbScaleY⟩ }) }, ?_, rfl⟩
      exact List.mem_map_of_mem _ hl
    · have hcm : ({ c with clipRect := ⟨c.clipRect.x * gio.fbScaleX,
          c.clipRect.y * gio.fbScaleY, c.clipRect.z * gio.fbScaleX,
          c.clipRect.w * gio.fbScaleY⟩ } : ImDrawCmd)
            ∈ l.cmdBuffer.map (fun c => { c with clipRect := ⟨c.clipRect.x * gio.fbScaleX,
              c.clipRect.y * gio.fbScaleY, c.clipRect.z * gio.fbScaleX,
              c.clipRect.w * gio.fbScaleY⟩ }) :=
        List.mem_map_of_mem _ hc
      exact scissor_mem_tracesOf (gio.displaySizeY * gio.fbScaleY) tm _ 0 _ hcm hcb

theorem C6_scissor_box_witness :
    ((drawCmdState 10 tmA cmdB glA).scissorBox
      = (cIntOfRat cmdB.clipRect.x, cIntOfRat (10 - cmdB.clipRect.w),
         cIntOfRat (cmdB.clipRect.z - cmdB.clipRect.x),
         cIntOfRat (cmdB.clipRect.w - cmdB.clipRect.y)))
    ∧ GLCall.scissor (cIntOfRat (cmdB.clipRect.x * gioA.fbScaleX))
        (cIntOfRat (gioA.displaySizeY * gioA.fbScaleY - cmdB.clipRect.w * gioA.fbScaleY))
        (cIntOfRat (cmdB.clipRect.z * gioA.fbScaleX - cmdB.clipRect.x * gioA.fbScaleX))
        (cIntOfRat (cmdB.clipRect.w * gioA.fbScaleY - cmdB.clipRect.y * gioA.fbScaleY))
        ∈ (drawGUIList gioA tmA ddA glA).2 :=
  ⟨C6_scissor_box.1 10 tmA glA cmdB rfl,
   C6_scissor_box.2 gioA tmA ddA glA listA cmdB (by decide) (by decide) rfl⟩

/-- C9: after `createFontTexture` or `updateFontTexture`,
`Fonts->TexID` equals the address of the `CGUITexture` wrapper object
itself, and `drawCommandList` reinterprets a command's `TextureId` back
into the wrapper at that address and binds the wrapper's stored GL
handle. -/
theorem C9_font_texid_aliasing :
    (∀ s : DriverState, ∃ s' addr, createFontTexture s = some (s', addr)
        ∧ s'.gio.fontsTexID = addr ∧ addr = s.nextObjAddr
        ∧ (s'.texObjects addr).mSourceType = .ETST_GUIFONT)
    ∧ (∀ (s : DriverState) (addr : Nat), (s.texObjects addr).mIsValid = true →
        ∃ s', updateFontTexture s addr = some s' ∧ s'.gio.fontsTexID = addr)
    ∧ (∀ (fbh : ℚ) (tm : Nat → CGUITexture) (gl : GLState) (c : ImDrawCmd) (first : Nat),
        c.userCallback = none →
        (drawCmdState fbh tm c gl).boundTexture2D = (tm c.textureId).mGPUTextureID
        ∧ (cmdCalls fbh tm c first).head?
            = some (.bindTexture (tm c.textureId).mGPUTextureID)) := by
  refine ⟨?_, ?_, ?_⟩
  · intro s
    by_cases hd : s.driverType = .EDT_NULL
    · simp only [createFontTexture, hd, ne_eq, not_true_eq_false, if_false]
      exact ⟨_, _, rfl, rfl, rfl, by simp [updObj]⟩
    · simp only [createFontTexture, hd, ne_eq, not_false_eq_true, if_true,
        copyTextureIDFromGUIFont, createTextureIDFromRawData]
      exact ⟨_, _, rfl, rfl, rfl, by simp [updObj]⟩
  · intro s addr hv
    by_cases hd : s.driverType = .EDT_NULL
    · simp only [updateFontTexture, hv, hd, ne_eq, not_true_eq_false, if_false, if_true]
      exact ⟨_, rfl, rfl⟩
    · simp only [updateFontTexture, hv, hd, ne_eq, not_false_eq_true, if_true,
        copyTextureIDFromGUIFont, createTextureIDFromRawData]
      exact ⟨_, rfl, rfl⟩
  · intro fbh tm gl c first hc
    constructor
    · simp [drawCmdState, hc]
    · simp [cmdCalls, hc]

theorem C9_font_texid_aliasing_witness :
    ((sA.texObjects 500).mIsValid = true
      ∧ ∃ s', updateFontTexture sA 500 = some s' ∧ s'.gio.fontsTexID = 500)
    ∧ ((drawCmdState 10 tmA cmdB glA).boundTexture2D = (tmA cmdB.textureId).mGPUTextureID
      ∧ (cmdCalls 10 tmA cmdB 3).head?
          = some (.bindTexture (tmA cmdB.textureId).mGPUTextureID)) :=
  ⟨⟨by decide, C9_font_texid_aliasing.2.1 sA 500 (by decide)⟩,
   C9_font_texid_aliasing.2.2 10 tmA glA cmdB 3 rfl⟩

/-! ### C1: recreate-on-change detection -/

theorem count_le_one_not_mem_erase {l : List Nat} {a : Nat}
    (h : l.count a ≤ 1) : a ∉ l.erase a := by
  intro hmem
  have hc := List.count_erase_self a l
  have hpos := List.count_pos_iff.mpr hmem
  omega

theorem deleteTextureFromMemory_spec (gl : GLState) (tex : CGUITexture) :
    (deleteTextureFromMemory gl tex).2 = { tex with mIsValid := false }
    ∧ (deleteTextureFromMemory gl tex).1.nextTextureName = gl.nextTextureName
    ∧ (deleteTextureFromMemory gl tex).1.boundTexture2D = gl.boundTexture2D
    ∧ (tex.mIsUsingOwnMemory = true →
        (deleteTextureFromMemory gl tex).1.liveTextures
          = gl.liveTextures.erase tex.mGPUTextureID)
    ∧ (tex.mIsUsingOwnMemory = false →
        (deleteTextureFromMemory gl tex).1 = gl)
    ∧ (tex.mIsUsingOwnMemory = true →
        gl.liveTextures.count tex.mGPUTextureID ≤ 1 →
        tex.mGPUTextureID ∉ (deleteTextureFromMemory gl tex).1.liveTextures) := by
  refine ⟨rfl, ?_, ?_, ?_, ?_, ?_⟩
  · rcases h : tex.mIsUsingOwnMemory <;> simp [deleteTextureFromMemory, h, glDeleteTextureOp]
  · rcases h : tex.mIsUsingOwnMemory <;> simp [deleteTextureFromMemory, h, glDeleteTextureOp]
  · intro h; simp [deleteTextureFromMemory, h, glDeleteTextureOp]
  · intro h; simp [deleteTextureFromMemory, h]
  · intro h hcount
    simp only [deleteTextureFromMemory, h, glDeleteTextureOp, if_true]
    exact count_le_one_not_mem_erase hcount

/-- C1 fails as stated: a raw-data wrapper whose stored source type and
source pointer both match the supplied ones is still recreated, because
the wrapper uses its own GPU memory (`mIsUsingOwnMemory`): the old GL
texture 7 is deleted and a fresh GL texture 10 is stored. -/
theorem C1_counterexample :
    (sA.texObjects 0).mSourceType = .ETST_RAWDATA
    ∧ (sA.texObjects 0).mSource = 100
    ∧ (sA.texObjects 0).mGPUTextureID = 7
    ∧ (updateTexture_raw sA 0 .ECF_A8 100 4 4).map
        (fun s' => (s'.texObjects 0).mGPUTextureID) = some 10
    ∧ (updateTexture_raw sA 0 .ECF_A8 100 4 4).map
        (fun s' => s'.gl.liveTextures) = some [10] := by
  decide

theorem createTextureInMemory_fst (f ptr W H : Nat) (gl : GLState) :
    (createTextureInMemory f ptr W H gl).1 = gl.nextTextureName := rfl

theorem createTextureInMemory_live (f ptr W H : Nat) (gl : GLState) :
    (createTextureInMemory f ptr W H gl).2.liveTextures
      = gl.nextTextureName :: gl.liveTextures := rfl

theorem createTextureInMemory_next (f ptr W H : Nat) (gl : GLState) :
    (createTextureInMemory f ptr W H gl).2.nextTextureName = gl.nextTextureName + 1 := rfl

theorem createTextureInMemory_bound (f ptr W H : Nat) (gl : GLState) :
    (createTextureInMemory f ptr W H gl).2.boundTexture2D = gl.boundTexture2D := rfl

/-- C1 amended: an `updateTexture` call recreates the GPU texture if and
only if the supplied source differs from the stored one (different source
type or different source pointer) *or the wrapper uses its own GPU
memory*; only when the source type and pointer match and the wrapper does
not use its own memory is the whole driver state, including every field
of the wrapper, left unchanged.  When recreation happens (non-null
driver), the old GL texture is freed exactly when the wrapper owned it,
and a new handle is stored. -/
theorem C1_update_recreate_amended :
    (∀ (tex : CGUITexture) (ty : ETextureSourceType) (src : Nat),
      updateRecreateNeeded tex ty src = true
        ↔ (tex.mSourceType ≠ ty ∨ src ≠ tex.mSource ∨ tex.mIsUsingOwnMemory = true))
    ∧
    (∀ (s : DriverState) (addr : Nat) (fmt : EColorFormat) (p W H : Nat),
      (s.texObjects addr).mIsValid = true →
      updateRecreateNeeded (s.texObjects addr) .ETST_RAWDATA p = false →
      updateTexture_raw s addr fmt p W H = some s)
    ∧
    (∀ (fast : Bool) (s : DriverState) (addr p : Nat),
      (s.texObjects addr).mIsValid = true →
      updateRecreateNeeded (s.texObjects addr) .ETST_TEXTURE p = false →
      updateTexture_itex fast s addr p = some s)
    ∧
    (∀ (s : DriverState) (addr p : Nat),
      (s.texObjects addr).mIsValid = true →
      updateRecreateNeeded (s.texObjects addr) .ETST_IMAGE p = false →
      updateTexture_img s addr p = some s)
    ∧
    (∀ (s : DriverState) (addr : Nat) (fmt : EColorFormat) (p W H : Nat),
      s.driverType = .EDT_OPENGL →
      (s.texObjects addr).mIsValid = true →
      updateRecreateNeeded (s.texObjects addr) .ETST_RAWDATA p = true →
      (fmt = .ECF_A8R8G8B8 ∨ fmt = .ECF_R8G8B8A8 ∨ fmt = .ECF_A8) →
      (s.texObjects addr).mGPUTextureID ∈ s.gl.liveTextures →
      (∀ n ∈ s.gl.liveTextures, n < s.gl.nextTextureName) →
      s.gl.liveTextures.count (s.texObjects addr).mGPUTextureID ≤ 1 →
      ∃ s', updateTexture_raw s addr fmt p W H = some s'
        ∧ s'.texObjects addr = ⟨true, .ETST_RAWDATA, p, true, s.gl.nextTextureName⟩
        ∧ s.gl.nextTextureName ∈ s'.gl.liveTextures
        ∧ ((s.texObjects addr).mIsUsingOwnMemory = true →
            (s.texObjects addr).mGPUTextureID ∉ s'.gl.liveTextures))
    ∧
    (∀ (s : DriverState) (addr p : Nat),
      s.driverType = .EDT_OPENGL →
      (s.texObjects addr).mIsValid = true →
      updateRecreateNeeded (s.texObjects addr) .ETST_TEXTURE p = true →
      ∃ s', updateTexture_itex true s addr p = some s'
        ∧ s'.texObjects addr
            = ⟨false, .ETST_TEXTURE, p, true,
               getTextureIDFromIrrlichtTexture (s.itexObjects p)⟩
        ∧ ((s.texObjects addr).mIsUsingOwnMemory = true →
            s.gl.liveTextures.count (s.texObjects addr).mGPUTextureID ≤ 1 →
            (s.texObjects addr).mGPUTextureID ∉ s'.gl.liveTextures))
    ∧
    (∀ (s : DriverState) (addr p : Nat),
      s.driverType = .EDT_OPENGL →
      (s.texObjects addr).mIsValid = true →
      updateRecreateNeeded (s.texObjects addr) .ETST_TEXTURE p = true →
      (s.itexObjects p).lockPtr ≠ 0 →
      (s.texObjects addr).mGPUTextureID ∈ s.gl.liveTextures →
      (∀ n ∈ s.gl.liveTextures, n < s.gl.nextTextureName) →
      s.gl.liveTextures.count (s.texObjects addr).mGPUTextureID ≤ 1 →
      ∃ s', updateTexture_itex false s addr p = some s'
        ∧ s'.texObjects addr = ⟨true, .ETST_TEXTURE, p, true, s.gl.nextTextureName⟩
        ∧ s.gl.nextTextureName ∈ s'.gl.liveTextures
        ∧ ((s.texObjects addr).mIsUsingOwnMemory = true →
            (s.texObjects addr).mGPUTextureID ∉ s'.gl.liveTextures))
    ∧
    (∀ (s : DriverState) (addr p : Nat),
      s.driverType = .EDT_OPENGL →
      (s.texObjects addr).mIsValid = true →
      updateRecreateNeeded (s.texObjects addr) .ETST_IMAGE p = true →
      (s.texObjects addr).mGPUTextureID ∈ s.gl.liveTextures →
      (∀ n ∈ s.gl.liveTextures, n < s.gl.nextTextureName) →
      s.gl.liveTextures.count (s.texObjects addr).mGPUTextureID ≤ 1 →
      ∃ s', updateTexture_img s addr p = some s'
        ∧ s'.texObjects addr = ⟨true, .ETST_IMAGE, p, true, s.gl.nextTextureName⟩
        ∧ s.gl.nextTextureName ∈ s'.gl.liveTextures
        ∧ ((s.texObjects addr).mIsUsingOwnMemory = true →
            (s.texObjects addr).mGPUTextureID ∉ s'.gl.liveTextures)) := by
  refine ⟨?_, ?_, ?_, ?_, ?_, ?_, ?_, ?_⟩
  · intro tex ty src
    by_cases h1 : tex.mSourceType = ty <;> by_cases h2 : src = tex.mSource <;>
      simp [updateRecreateNeeded, h1, h2]
  · intro s addr fmt p W H hval hrec
    simp [updateTexture_raw, hval, hrec]
  · intro fast s addr p hval hrec
    simp [updateTexture_itex, hval, hrec]
  · intro s addr p hval hrec
    simp [updateTexture_img, hval, hrec]
  · intro s addr fmt p W H hdrv hval hrec hfmt hmem hfresh hcount
    have hne : s.driverType ≠ .EDT_NULL := by rw [hdrv]; simp
    have hold : (s.texObjects addr).mGPUTextureID < s.gl.nextTextureName := hfresh _ hmem
    have hds := deleteTextureFromMemory_spec s.gl (s.texObjects addr)
    have hnotin : (s.texObjects addr).mIsUsingOwnMemory = true →
        (s.texObjects addr).mGPUTextureID
          ∉ s.gl.nextTextureName
            :: (deleteTextureFromMemory s.gl (s.texObjects addr)).1.liveTextures := by
      intro ho hmem2
      rcases List.mem_cons.mp hmem2 with h | h
      · omega
      · exact hds.2.2.2.2.2 ho hcount h
    rcases hfmt with rfl | rfl | rfl
    all_goals
      simp only [updateTexture_raw, hval, hrec, hne, ne_eq, not_false_eq_true, if_true,
        createTextureIDFromRawData]
      refine ⟨_, rfl, ?_, ?_, ?_⟩
      · simp only [updObj, if_pos, createTextureInMemory_fst, hds.2.1]
      · simp only [createTextureInMemory_live, hds.2.1]
        exact List.mem_cons_self _ _
      · intro ho
        simp only [createTextureInMemory_live, hds.2.1]
        intro hx
        rcases List.mem_cons.mp hx with h | h
        · omega
        · exact hds.2.2.2.2.2 ho hcount h
  · intro s addr p hdrv hval hrec
    have hne : s.driverType ≠ .EDT_NULL := by rw [hdrv]; simp
    have hds := deleteTextureFromMemory_spec s.gl (s.texObjects addr)
    simp only [updateTexture_itex, hval, hrec, hne, ne_eq, not_false_eq_true, if_true]
    refine ⟨_, rfl, ?_, ?_⟩
    · simp only [updObj, if_pos]
    · intro ho hcount
      exact hds.2.2.2.2.2 ho hcount
  · intro s addr p hdrv hval hrec hlock hmem hfresh hcount
    have hne : s.driverType ≠ .EDT_NULL := by rw [hdrv]; simp
    have hold : (s.texObjects addr).mGPUTextureID < s.gl.nextTextureName := hfresh _ hmem
    have hds := deleteTextureFromMemory_spec s.gl (s.texObjects addr)
    have hnotin : (s.texObjects addr).mIsUsingOwnMemory = true →
        (s.texObjects addr).mGPUTextureID
          ∉ s.gl.nextTextureName
            :: (deleteTextureFromMemory s.gl (s.texObjects addr)).1.liveTextures := by
      intro ho hmem2
      rcases List.mem_cons.mp hmem2 with h | h
      · omega
      · exact hds.2.2.2.2.2 ho hcount h
    simp only [updateTexture_itex, hval, hrec, hne, ne_eq, not_false_eq_true, if_true,
      Bool.false_eq_true, if_false, copyTextureIDFromIrrlichtTexture, hlock]
    refine ⟨_, rfl, ?_, ?_, ?_⟩
    · simp only [updObj, if_pos, createTextureInMemory_fst, hds.2.1]
    · simp only [createTextureInMemory_live, hds.2.1]
      exact List.mem_cons_self _ _
    · intro ho
      simp only [createTextureInMemory_live, hds.2.1]
      intro hx
      rcases List.mem_cons.mp hx with h | h
      · omega
      · exact hds.2.2.2.2.2 ho hcount h
  · intro s addr p hdrv hval hrec hmem hfresh hcount
    have hne : s.driverType ≠ .EDT_NULL := by rw [hdrv]; simp
    have hold : (s.texObjects addr).mGPUTextureID < s.gl.nextTextureName := hfresh _ hmem
    have hds := deleteTextureFromMemory_spec s.gl (s.texObjects addr)
    have hnotin : (s.texObjects addr).mIsUsingOwnMemory = true →
        (s.texObjects addr).mGPUTextureID
          ∉ s.gl.nextTextureName
            :: (deleteTextureFromMemory s.gl (s.texObjects addr)).1.liveTextures := by
      intro ho hmem2
      rcases List.mem_cons.mp hmem2 with h | h
      · omega
      · exact hds.2.2.2.2.2 ho hcount h
    simp only [updateTexture_img, hval, hrec, hne, ne_eq, not_false_eq_true, if_true,
      copyTextureIDFromIrrlichtImage]
    refine ⟨_, rfl, ?_, ?_, ?_⟩
    · simp only [updObj, if_pos, createTextureInMemory_fst, hds.2.1]
    · simp only [createTextureInMemory_live, hds.2.1]
      exact List.mem_cons_self _ _
    · intro ho
      simp only [createTextureInMemory_live, hds.2.1]
      intro hx
      rcases List.mem_cons.mp hx with h | h
      · omega
      · exact hds.2.2.2.2.2 ho hcount h

theorem C1_update_recreate_amended_witness :
    (updateTexture_itex true sD 0 200 = some sD)
    ∧ (∃ s', updateTexture_raw sA 0 .ECF_A8 100 4 4 = some s'
        ∧ s'.texObjects 0 = ⟨true, .ETST_RAWDATA, 100, true, sA.gl.nextTextureName⟩
        ∧ sA.gl.nextTextureName ∈ s'.gl.liveTextures
        ∧ ((sA.texObjects 0).mIsUsingOwnMemory = true →
            (sA.texObjects 0).mGPUTextureID ∉ s'.gl.liveTextures)) :=
  ⟨C1_update_recreate_amended.2.2.1 true sD 0 200 (by decide) (by decide),
   C1_update_recreate_amended.2.2.2.2.1 sA 0 .ECF_A8 100 4 4 rfl (by decide) (by decide)
     (Or.inr (Or.inr rfl)) (by decide) (by decide) (by decide)⟩

/-- C7: the driver reports no failures by return value.
`createTextureIDFromRawData` fails an assertion (`none`) exactly on the
unknown color formats; every update/delete operation asserts `mIsValid`
(`none` when the wrapper is invalid); and with a valid wrapper (and a
known format, and a lockable texture) every operation returns normally. -/
theorem C7_assertions_only :
    (∀ (code p W H : Nat) (h : CppHeap) (gl : GLState),
      createTextureIDFromRawData (.ECF_UNKNOWN code) p W H h gl = none)
    ∧
    (∀ (fmt : EColorFormat) (p W H : Nat) (h : CppHeap) (gl : GLState),
      (fmt = .ECF_A8R8G8B8 ∨ fmt = .ECF_R8G8B8A8 ∨ fmt = .ECF_A8) →
      (createTextureIDFromRawData fmt p W H h gl).isSome = true)
    ∧
    (∀ (s : DriverState) (addr : Nat) (fmt : EColorFormat) (p W H : Nat),
      (s.texObjects addr).mIsValid = false →
      updateTexture_raw s addr fmt p W H = none)
    ∧
    (∀ (fast : Bool) (s : DriverState) (addr p : Nat),
      (s.texObjects addr).mIsValid = false →
      updateTexture_itex fast s addr p = none)
    ∧
    (∀ (s : DriverState) (addr p : Nat),
      (s.texObjects addr).mIsValid = false →
      updateTexture_img s addr p = none)
    ∧
    (∀ (s : DriverState) (addr : Nat),
      (s.texObjects addr).mIsValid = false →
      updateFontTexture s addr = none)
    ∧
    (∀ (s : DriverState) (addr : Nat),
      (s.texObjects addr).mIsValid = false →
      deleteTexture s addr = none)
    ∧
    (∀ (s : DriverState) (addr : Nat) (fmt : EColorFormat) (p W H : Nat),
      (s.texObjects addr).mIsValid = true →
      (fmt = .ECF_A8R8G8B8 ∨ fmt = .ECF_R8G8B8A8 ∨ fmt = .ECF_A8) →
      (updateTexture_raw s addr fmt p W H).isSome = true)
    ∧
    (∀ (s : DriverState) (addr p : Nat),
      (s.texObjects addr).mIsValid = true →
      (updateTexture_itex true s addr p).isSome = true)
    ∧
    (∀ (s : DriverState) (addr p : Nat),
      (s.texObjects addr).mIsValid = true →
      (s.itexObjects p).lockPtr ≠ 0 →
      (updateTexture_itex false s addr p).isSome = true)
    ∧
    (∀ (s : DriverState) (addr p : Nat),
      (s.texObjects addr).mIsValid = true →
      (updateTexture_img s addr p).isSome = true)
    ∧
    (∀ (s : DriverState) (addr : Nat),
      (s.texObjects addr).mIsValid = true →
      (updateFontTexture s addr).isSome = true)
    ∧
    (∀ (s : DriverState) (addr : Nat),
      (s.texObjects addr).mIsValid = true →
      (deleteTexture s addr).isSome = true) := by
  refine ⟨?_, ?_, ?_, ?_, ?_, ?_, ?_, ?_, ?_, ?_, ?_, ?_, ?_⟩
  · intro code p W H h gl
    rfl
  · intro fmt p W H h gl hfmt
    rcases hfmt with rfl | rfl | rfl <;> rfl
  · intro s addr fmt p W H hval
    simp [updateTexture_raw, hval]
  · intro fast s addr p hval
    simp [updateTexture_itex, hval]
  · intro s addr p hval
    simp [updateTexture_img, hval]
  · intro s addr hval
    simp [updateFontTexture, hval]
  · intro s addr hval
    simp [deleteTexture, hval]
  · intro s addr fmt p W H hval hfmt
    by_cases hrec : updateRecreateNeeded (s.texObjects addr) .ETST_RAWDATA p = true
    · by_cases hd : s.driverType = .EDT_NULL
      · simp [updateTexture_raw, hval, hrec, hd]
      · rcases hfmt with rfl | rfl | rfl <;>
          simp [updateTexture_raw, hval, hrec, hd, createTextureIDFromRawData]
    · rw [Bool.not_eq_true] at hrec
      simp [updateTexture_raw, hval, hrec]
  · intro s addr p hval
    by_cases hrec : updateRecreateNeeded (s.texObjects addr) .ETST_TEXTURE p = true
    · by_cases hd : s.driverType = .EDT_NULL <;> simp [updateTexture_itex, hval, hrec, hd]
    · rw [Bool.not_eq_true] at hrec
      simp [updateTexture_itex, hval, hrec]
  · intro s addr p hval hlock
    by_cases hrec : updateRecreateNeeded (s.texObjects addr) .ETST_TEXTURE p = true
    · by_cases hd : s.driverType = .EDT_NULL <;>
        simp [updateTexture_itex, hval, hrec, hd, copyTextureIDFromIrrlichtTexture, hlock]
    · rw [Bool.not_eq_true] at hrec
      simp [updateTexture_itex, hval, hrec]
  · intro s addr p hval
    by_cases hrec : updateRecreateNeeded (s.texObjects addr) .ETST_IMAGE p = true
    · by_cases hd : s.driverType = .EDT_NULL <;> simp [updateTexture_img, hval, hrec, hd]
    · rw [Bool.not_eq_true] at hrec
      simp [updateTexture_img, hval, hrec]
  · intro s addr hval
    by_cases hd : s.driverType = .EDT_NULL <;>
      simp [updateFontTexture, hval, hd, copyTextureIDFromGUIFont, createTextureIDFromRawData]
  · intro s addr hval
    simp [deleteTexture, hval]

theorem C7_assertions_only_witness :
    ((createTextureIDFromRawData .ECF_A8 0 2 2 heapA glA).isSome = true)
    ∧ (updateTexture_raw sE 0 .ECF_A8 100 4 4 = none)
    ∧ (deleteTexture sE 0 = none)
    ∧ ((updateTexture_raw sA 0 .ECF_A8 100 4 4).isSome = true)
    ∧ ((deleteTexture sA 0).isSome = true) :=
  ⟨C7_assertions_only.2.1 .ECF_A8 0 2 2 heapA glA (Or.inr (Or.inr rfl)),
   C7_assertions_only.2.2.1 sE 0 .ECF_A8 100 4 4 (by decide),
   C7_assertions_only.2.2.2.2.2.2.1 sE 0 (by decide),
   C7_assertions_only.2.2.2.2.2.2.2.1 sA 0 .ECF_A8 100 4 4 (by decide) (Or.inr (Or.inr rfl)),
   C7_assertions_only.2.2.2.2.2.2.2.2.2.2.2.2 sA 0 (by decide)⟩

/-! ### C3: one GPU handle per wrapper -/

/-- C3: `deleteTextureFromMemory` frees the GL texture exactly when the
wrapper owns its memory and always marks the wrapper invalid; every
create operation stores exactly one (live, for copied textures) handle in
a fresh valid wrapper; and every `updateTexture` overload (raw data,
ITexture in both builds, and IImage; recreate path), `updateFontTexture`
and `deleteTexture` release the previously held handle via
`deleteTextureFromMemory` before storing a new one or destroying the
wrapper. -/
theorem C3_one_handle_per_wrapper :
    (∀ (gl : GLState) (tex : CGUITexture),
      (deleteTextureFromMemory gl tex).2.mIsValid = false
      ∧ (deleteTextureFromMemory gl tex).2.mGPUTextureID = tex.mGPUTextureID
      ∧ (tex.mIsUsingOwnMemory = true →
          (deleteTextureFromMemory gl tex).1.liveTextures
            = gl.liveTextures.erase tex.mGPUTextureID)
      ∧ (tex.mIsUsingOwnMemory = false → (deleteTextureFromMemory gl tex).1 = gl))
    ∧
    (∀ (s : DriverState) (fmt : EColorFormat) (p W H : Nat),
      s.driverType = .EDT_OPENGL →
      (fmt = .ECF_A8R8G8B8 ∨ fmt = .ECF_R8G8B8A8 ∨ fmt = .ECF_A8) →
      ∃ s' addr, createTexture_raw s fmt p W H = some (s', addr)
        ∧ (s'.texObjects addr).mGPUTextureID = s.gl.nextTextureName
        ∧ (s'.texObjects addr).mIsValid = true
        ∧ s.gl.nextTextureName ∈ s'.gl.liveTextures)
    ∧
    (∀ (s : DriverState) (p : Nat),
      s.driverType = .EDT_OPENGL →
      ∃ s' addr, createTexture_itex true s p = some (s', addr)
        ∧ (s'.texObjects addr).mGPUTextureID = (s.itexObjects p).textureName
        ∧ (s'.texObjects addr).mIsValid = true)
    ∧
    (∀ (s : DriverState) (p : Nat),
      s.driverType = .EDT_OPENGL →
      (s.itexObjects p).lockPtr ≠ 0 →
      ∃ s' addr, createTexture_itex false s p = some (s', addr)
        ∧ (s'.texObjects addr).mGPUTextureID = s.gl.nextTextureName
        ∧ (s'.texObjects addr).mIsValid = true
        ∧ s.gl.nextTextureName ∈ s'.gl.liveTextures)
    ∧
    (∀ (s : DriverState) (p : Nat),
      s.driverType = .EDT_OPENGL →
      ∃ s' addr, createTexture_img s p = some (s', addr)
        ∧ (s'.texObjects addr).mGPUTextureID = s.gl.nextTextureName
        ∧ (s'.texObjects addr).mIsValid = true
        ∧ s.gl.nextTextureName ∈ s'.gl.liveTextures)
    ∧
    (∀ s : DriverState,
      s.driverType = .EDT_OPENGL →
      ∃ s' addr, createFontTexture s = some (s', addr)
        ∧ (s'.texObjects addr).mGPUTextureID = s.gl.nextTextureName
        ∧ (s'.texObjects addr).mIsValid = true
        ∧ s.gl.nextTextureName ∈ s'.gl.liveTextures)
    ∧
    (∀ (s : DriverState) (addr : Nat),
      s.driverType = .EDT_OPENGL →
      (s.texObjects addr).mIsValid = true →
      (s.texObjects addr).mGPUTextureID ∈ s.gl.liveTextures →
      (∀ n ∈ s.gl.liveTextures, n < s.gl.nextTextureName) →
      s.gl.liveTextures.count (s.texObjects addr).mGPUTextureID ≤ 1 →
      ∃ s', updateFontTexture s addr = some s'
        ∧ (s'.texObjects addr).mGPUTextureID = s.gl.nextTextureName
        ∧ (s'.texObjects addr).mIsValid = true
        ∧ s.gl.nextTextureName ∈ s'.gl.liveTextures
        ∧ ((s.texObjects addr).mIsUsingOwnMemory = true →
            (s.texObjects addr).mGPUTextureID ∉ s'.gl.liveTextures))
    ∧
    (∀ (s : DriverState) (addr : Nat) (fmt : EColorFormat) (p W H : Nat),
      s.driverType = .EDT_OPENGL →
      (s.texObjects addr).mIsValid = true →
      updateRecreateNeeded (s.texObjects addr) .ETST_RAWDATA p = true →
      (fmt = .ECF_A8R8G8B8 ∨ fmt = .ECF_R8G8B8A8 ∨ fmt = .ECF_A8) →
      (s.texObjects addr).mGPUTextureID ∈ s.gl.liveTextures →
      (∀ n ∈ s.gl.liveTextures, n < s.gl.nextTextureName) →
      s.gl.liveTextures.count (s.texObjects addr).mGPUTextureID ≤ 1 →
      ∃ s', updateTexture_raw s addr fmt p W H = some s'
        ∧ (s'.texObjects addr).mGPUTextureID = s.gl.nextTextureName
        ∧ (s'.texObjects addr).mIsValid = true
        ∧ s.gl.nextTextureName ∈ s'.gl.liveTextures
        ∧ ((s.texObjects addr).mIsUsingOwnMemory = true →
            (s.texObjects addr).mGPUTextureID ∉ s'.gl.liveTextures))
    ∧
    (∀ (s : DriverState) (addr p : Nat),
      s.driverType = .EDT_OPENGL →
      (s.texObjects addr).mIsValid = true →
      updateRecreateNeeded (s.texObjects addr) .ETST_TEXTURE p = true →
      s.gl.liveTextures.count (s.texObjects addr).mGPUTextureID ≤ 1 →
      ∃ s', updateTexture_itex true s addr p = some s'
        ∧ (s'.texObjects addr).mGPUTextureID
            = getTextureIDFromIrrlichtTexture (s.itexObjects p)
        ∧ (s'.texObjects addr).mIsValid = true
        ∧ ((s.texObjects addr).mIsUsingOwnMemory = true →
            (s.texObjects addr).mGPUTextureID ∉ s'.gl.liveTextures))
    ∧
    (∀ (s : DriverState) (addr p : Nat),
      s.driverType = .EDT_OPENGL →
      (s.texObjects addr).mIsValid = true →
      updateRecreateNeeded (s.texObjects addr) .ETST_TEXTURE p = true →
      (s.itexObjects p).lockPtr ≠ 0 →
      (s.texObjects addr).mGPUTextureID ∈ s.gl.liveTextures →
      (∀ n ∈ s.gl.liveTextures, n < s.gl.nextTextureName) →
      s.gl.liveTextures.count (s.texObjects addr).mGPUTextureID ≤ 1 →
      ∃ s', updateTexture_itex false s addr p = some s'
        ∧ (s'.texObjects addr).mGPUTextureID = s.gl.nextTextureName
        ∧ (s'.texObjects addr).mIsValid = true
        ∧ s.gl.nextTextureName ∈ s'.gl.liveTextures
        ∧ ((s.texObjects addr).mIsUsingOwnMemory = true →
            (s.texObjects addr).mGPUTextureID ∉ s'.gl.liveTextures))
    ∧
    (∀ (s : DriverState) (addr p : Nat),
      s.driverType = .EDT_OPENGL →
      (s.texObjects addr).mIsValid = true →
      updateRecreateNeeded (s.texObjects addr) .ETST_IMAGE p = true →
      (s.texObjects addr).mGPUTextureID ∈ s.gl.liveTextures →
      (∀ n ∈ s.gl.liveTextures, n < s.gl.nextTextureName) →
      s.gl.liveTextures.count (s.texObjects addr).mGPUTextureID ≤ 1 →
      ∃ s', updateTexture_img s addr p = some s'
        ∧ (s'.texObjects addr).mGPUTextureID = s.gl.nextTextureName
        ∧ (s'.texObjects addr).mIsValid = true
        ∧ s.gl.nextTextureName ∈ s'.gl.liveTextures
        ∧ ((s.texObjects addr).mIsUsingOwnMemory = true →
            (s.texObjects addr).mGPUTextureID ∉ s'.gl.liveTextures))
    ∧
    (∀ (s : DriverState) (addr : Nat),
      s.driverType = .EDT_OPENGL →
      (s.texObjects addr).mIsValid = true →
      ∃ s', deleteTexture s addr = some s'
        ∧ (s'.texObjects addr).mIsValid = false
        ∧ ((s.texObjects addr).mIsUsingOwnMemory = true →
            s'.gl.liveTextures
              = s.gl.liveTextures.erase (s.texObjects addr).mGPUTextureID)
        ∧ ((s.texObjects addr).mIsUsingOwnMemory = false → s'.gl = s.gl)) := by
  refine ⟨?_, ?_, ?_, ?_, ?_, ?_, ?_, ?_, ?_, ?_, ?_, ?_⟩
  · intro gl tex
    have hds := deleteTextureFromMemory_spec gl tex
    exact ⟨by rw [hds.1], by rw [hds.1], hds.2.2.2.1, hds.2.2.2.2.1⟩
  · intro s fmt p W H hdrv hfmt
    have hne : s.driverType ≠ .EDT_NULL := by rw [hdrv]; simp
    rcases hfmt with rfl | rfl | rfl <;>
      simp only [createTexture_raw, hne, ne_eq, not_false_eq_true, if_true,
        createTextureIDFromRawData] <;>
      exact ⟨_, _, rfl, by simp [updObj, createTextureInMemory_fst],
        by simp [updObj], by simp [createTextureInMemory_live]⟩
  · intro s p hdrv
    have hne : s.driverType ≠ .EDT_NULL := by rw [hdrv]; simp
    simp only [createTexture_itex, hne, ne_eq, not_false_eq_true, if_true]
    exact ⟨_, _, rfl, by simp [updObj, getTextureIDFromIrrlichtTexture], by simp [updObj]⟩
  · intro s p hdrv hlock
    have hne : s.driverType ≠ .EDT_NULL := by rw [hdrv]; simp
    simp only [createTexture_itex, hne, ne_eq, not_false_eq_true, if_true,
      Bool.false_eq_true, if_false, copyTextureIDFromIrrlichtTexture, hlock]
    exact ⟨_, _, rfl, by simp [updObj, createTextureInMemory_fst],
      by simp [updObj], by simp [createTextureInMemory_live]⟩
  · intro s p hdrv
    have hne : s.driverType ≠ .EDT_NULL := by rw [hdrv]; simp
    simp only [createTexture_img, hne, ne_eq, not_false_eq_true, if_true,
      copyTextureIDFromIrrlichtImage]
    exact ⟨_, _, rfl, by simp [updObj, createTextureInMemory_fst],
      by simp [updObj], by simp [createTextureInMemory_live]⟩
  · intro s hdrv
    have hne : s.driverType ≠ .EDT_NULL := by rw [hdrv]; simp
    simp only [createFontTexture, hne, ne_eq, not_false_eq_true, if_true,
      copyTextureIDFromGUIFont, createTextureIDFromRawData]
    exact ⟨_, _, rfl, by simp [updObj, createTextureInMemory_fst],
      by simp [updObj], by simp [createTextureInMemory_live]⟩
  · intro s addr hdrv hval hmem hfresh hcount
    have hne : s.driverType ≠ .EDT_NULL := by rw [hdrv]; simp
    have hold : (s.texObjects addr).mGPUTextureID < s.gl.nextTextureName := hfresh _ hmem
    have hds := deleteTextureFromMemory_spec s.gl (s.texObjects addr)
    simp only [updateFontTexture, hval, hne, ne_eq, not_false_eq_true, if_true,
      copyTextureIDFromGUIFont, createTextureIDFromRawData]
    refine ⟨_, rfl, ?_, ?_, ?_, ?_⟩
    · simp only [updObj, if_pos, createTextureInMemory_fst, hds.2.1]
    · simp only [updObj, if_pos]
    · simp only [createTextureInMemory_live, hds.2.1]
      exact List.mem_cons_self _ _
    · intro ho
      simp only [createTextureInMemory_live, hds.2.1]
      intro hx
      rcases List.mem_cons.mp hx with h | h
      · omega
      · exact hds.2.2.2.2.2 ho hcount h
  · intro s addr fmt p W H hdrv hval hrec hfmt hmem hfresh hcount
    have hne : s.driverType ≠ .EDT_NULL := by rw [hdrv]; simp
    have hold : (s.texObjects addr).mGPUTextureID < s.gl.nextTextureName := hfresh _ hmem
    have hds := deleteTextureFromMemory_spec s.gl (s.texObjects addr)
    rcases hfmt with rfl | rfl | rfl
    all_goals
      simp only [updateTexture_raw, hval, hrec, hne, ne_eq, not_false_eq_true, if_true,
        createTextureIDFromRawData]
      refine ⟨_, rfl, ?_, ?_, ?_, ?_⟩
      · simp only [updObj, if_pos, createTextureInMemory_fst, hds.2.1]
      · simp only [updObj, if_pos]
      · simp only [createTextureInMemory_live, hds.2.1]
        exact List.mem_cons_self _ _
      · intro ho
        simp only [createTextureInMemory_live, hds.2.1]
        intro hx
        rcases List.mem_cons.mp hx with h | h
        · omega
        · exact hds.2.2.2.2.2 ho hcount h
  · intro s addr p hdrv hval hrec hcount
    have hne : s.driverType ≠ .EDT_NULL := by rw [hdrv]; simp
    have hds := deleteTextureFromMemory_spec s.gl (s.texObjects addr)
    simp only [updateTexture_itex, hval, hrec, hne, ne_eq, not_false_eq_true, if_true]
    refine ⟨_, rfl, ?_, ?_, ?_⟩
    · simp [updObj]
    · simp [updObj]
    · intro ho
      exact hds.2.2.2.2.2 ho hcount
  · intro s addr p hdrv hval hrec hlock hmem hfresh hcount
    have hne : s.driverType ≠ .EDT_NULL := by rw [hdrv]; simp
    have hold : (s.texObjects addr).mGPUTextureID < s.gl.nextTextureName := hfresh _ hmem
    have hds := deleteTextureFromMemory_spec s.gl (s.texObjects addr)
    simp only [updateTexture_itex, hval, hrec, hne, ne_eq, not_false_eq_true, if_true,
      Bool.false_eq_true, if_false, copyTextureIDFromIrrlichtTexture, hlock]
    refine ⟨_, rfl, ?_, ?_, ?_, ?_⟩
    · simp only [updObj, if_pos, createTextureInMemory_fst, hds.2.1]
    · simp only [updObj, if_pos]
    · simp only [createTextureInMemory_live, hds.2.1]
      exact List.mem_cons_self _ _
    · intro ho
      simp only [createTextureInMemory_live, hds.2.1]
      intro hx
      rcases List.mem_cons.mp hx with h | h
      · omega
      · exact hds.2.2.2.2.2 ho hcount h
  · intro s addr p hdrv hval hrec hmem hfresh hcount
    have hne : s.driverType ≠ .EDT_NULL := by rw [hdrv]; simp
    have hold : (s.texObjects addr).mGPUTextureID < s.gl.nextTextureName := hfresh _ hmem
    have hds := deleteTextureFromMemory_spec s.gl (s.texObjects addr)
    simp only [updateTexture_img, hval, hrec, hne, ne_eq, not_false_eq_true, if_true,
      copyTextureIDFromIrrlichtImage]
    refine ⟨_, rfl, ?_, ?_, ?_, ?_⟩
    · simp only [updObj, if_pos, createTextureInMemory_fst, hds.2.1]
    · simp only [updObj, if_pos]
    · simp only [createTextureInMemory_live, hds.2.1]
      exact List.mem_cons_self _ _
    · intro ho
      simp only [createTextureInMemory_live, hds.2.1]
      intro hx
      rcases List.mem_cons.mp hx with h | h
      · omega
      · exact hds.2.2.2.2.2 ho hcount h
  · intro s addr hdrv hval
    have hne : s.driverType ≠ .EDT_NULL := by rw [hdrv]; simp
    have hds := deleteTextureFromMemory_spec s.gl (s.texObjects addr)
    simp only [deleteTexture, hval, hne, ne_eq, not_false_eq_true, if_true]
    refine ⟨_, rfl, ?_, ?_, ?_⟩
    · simp only [updObj, if_pos]
      rw [hds.1]
    · intro ho
      exact hds.2.2.2.1 ho
    · intro ho
      exact hds.2.2.2.2.1 ho

theorem C3_one_handle_per_wrapper_witness :
    (∃ s' addr, createTexture_raw sA .ECF_A8 100 2 2 = some (s', addr)
      ∧ (s'.texObjects addr).mGPUTextureID = sA.gl.nextTextureName
      ∧ (s'.texObjects addr).mIsValid = true
      ∧ sA.gl.nextTextureName ∈ s'.gl.liveTextures)
    ∧ (∃ s', updateFontTexture sA 0 = some s'
      ∧ (s'.texObjects 0).mGPUTextureID = sA.gl.nextTextureName
      ∧ (s'.texObjects 0).mIsValid = true
      ∧ sA.gl.nextTextureName ∈ s'.gl.liveTextures
      ∧ ((sA.texObjects 0).mIsUsingOwnMemory = true →
          (sA.texObjects 0).mGPUTextureID ∉ s'.gl.liveTextures))
    ∧ (∃ s', updateTexture_itex true sA 0 300 = some s'
      ∧ (s'.texObjects 0).mGPUTextureID
          = getTextureIDFromIrrlichtTexture (sA.itexObjects 300)
      ∧ (s'.texObjects 0).mIsValid = true
      ∧ ((sA.texObjects 0).mIsUsingOwnMemory = true →
          (sA.texObjects 0).mGPUTextureID ∉ s'.gl.liveTextures))
    ∧ (∃ s', updateTexture_itex false sA 0 300 = some s'
      ∧ (s'.texObjects 0).mGPUTextureID = sA.gl.nextTextureName
      ∧ (s'.texObjects 0).mIsValid = true
      ∧ sA.gl.nextTextureName ∈ s'.gl.liveTextures
      ∧ ((sA.texObjects 0).mIsUsingOwnMemory = true →
          (sA.texObjects 0).mGPUTextureID ∉ s'.gl.liveTextures))
    ∧ (∃ s', updateTexture_img sA 0 300 = some s'
      ∧ (s'.texObjects 0).mGPUTextureID = sA.gl.nextTextureName
      ∧ (s'.texObjects 0).mIsValid = true
      ∧ sA.gl.nextTextureName ∈ s'.gl.liveTextures
      ∧ ((sA.texObjects 0).mIsUsingOwnMemory = true →
          (sA.texObjects 0).mGPUTextureID ∉ s'.gl.liveTextures))
    ∧ (∃ s', deleteTexture sA 0 = some s'
      ∧ (s'.texObjects 0).mIsValid = false
      ∧ ((sA.texObjects 0).mIsUsingOwnMemory = true →
          s'.gl.liveTextures = sA.gl.liveTextures.erase (sA.texObjects 0).mGPUTextureID)
      ∧ ((sA.texObjects 0).mIsUsingOwnMemory = false → s'.gl = sA.gl)) :=
  ⟨C3_one_handle_per_wrapper.2.1 sA .ECF_A8 100 2 2 rfl (Or.inr (Or.inr rfl)),
   C3_one_handle_per_wrapper.2.2.2.2.2.2.1 sA 0 rfl (by decide) (by decide) (by decide)
     (by decide),
   C3_one_handle_per_wrapper.2.2.2.2.2.2.2.2.1 sA 0 300 rfl (by decide) (by decide)
     (by decide),
   C3_one_handle_per_wrapper.2.2.2.2.2.2.2.2.2.1 sA 0 300 rfl (by decide) (by decide)
     (by decide) (by decide) (by decide) (by decide),
   C3_one_handle_per_wrapper.2.2.2.2.2.2.2.2.2.2.1 sA 0 300 rfl (by decide) (by decide)
     (by decide) (by decide) (by decide),
   C3_one_handle_per_wrapper.2.2.2.2.2.2.2.2.2.2.2 sA 0 rfl (by decide)⟩

/-- C8: under the `EDT_NULL` video driver every create and update
operation leaves the wrapper with the sentinel GPU texture ID `0x1` and
`mIsValid = true`, without creating any OpenGL texture (for the update
overloads the wrapper is assumed to carry the sentinel already, as every
wrapper created under `EDT_NULL` does). -/
theorem C8_null_driver_sentinel :
    (∀ (s : DriverState) (fmt : EColorFormat) (p W H : Nat),
      s.driverType = .EDT_NULL →
      ∃ s' addr, createTexture_raw s fmt p W H = some (s', addr)
        ∧ (s'.texObjects addr).mGPUTextureID = 1
        ∧ (s'.texObjects addr).mIsValid = true
        ∧ s'.gl = s.gl)
    ∧
    (∀ (fast : Bool) (s : DriverState) (p : Nat),
      s.driverType = .EDT_NULL →
      ∃ s' addr, createTexture_itex fast s p = some (s', addr)
        ∧ (s'.texObjects addr).mGPUTextureID = 1
        ∧ (s'.texObjects addr).mIsValid = true
        ∧ s'.gl = s.gl)
    ∧
    (∀ (s : DriverState) (p : Nat),
      s.driverType = .EDT_NULL →
      ∃ s' addr, createTexture_img s p = some (s', addr)
        ∧ (s'.texObjects addr).mGPUTextureID = 1
        ∧ (s'.texObjects addr).mIsValid = true
        ∧ s'.gl = s.gl)
    ∧
    (∀ s : DriverState,
      s.driverType = .EDT_NULL →
      ∃ s' addr, createFontTexture s = some (s', addr)
        ∧ (s'.texObjects addr).mGPUTextureID = 1
        ∧ (s'.texObjects addr).mIsValid = true
        ∧ s'.gl = s.gl)
    ∧
    (∀ (s : DriverState) (addr : Nat) (fmt : EColorFormat) (p W H : Nat),
      s.driverType = .EDT_NULL →
      (s.texObjects addr).mIsValid = true →
      (s.texObjects addr).mGPUTextureID = 1 →
      ∃ s', updateTexture_raw s addr fmt p W H = some s'
        ∧ (s'.texObjects addr).mGPUTextureID = 1
        ∧ (s'.texObjects addr).mIsValid = true
        ∧ s'.gl = s.gl)
    ∧
    (∀ (fast : Bool) (s : DriverState) (addr p : Nat),
      s.driverType = .EDT_NULL →
      (s.texObjects addr).mIsValid = true →
      (s.texObjects addr).mGPUTextureID = 1 →
      ∃ s', updateTexture_itex fast s addr p = some s'
        ∧ (s'.texObjects addr).mGPUTextureID = 1
        ∧ (s'.texObjects addr).mIsValid = true
        ∧ s'.gl = s.gl)
    ∧
    (∀ (s : DriverState) (addr p : Nat),
      s.driverType = .EDT_NULL →
      (s.texObjects addr).mIsValid = true →
      (s.texObjects addr).mGPUTextureID = 1 →
      ∃ s', updateTexture_img s addr p = some s'
        ∧ (s'.texObjects addr).mGPUTextureID = 1
        ∧ (s'.texObjects addr).mIsValid = true
        ∧ s'.gl = s.gl)
    ∧
    (∀ (s : DriverState) (addr : Nat),
      s.driverType = .EDT_NULL →
      (s.texObjects addr).mIsValid = true →
      ∃ s', updateFontTexture s addr = some s'
        ∧ (s'.texObjects addr).mGPUTextureID = 1
        ∧ (s'.texObjects addr).mIsValid = true
        ∧ s'.gl.nextTextureName = s.gl.nextTextureName
        ∧ ((s.texObjects addr).mIsUsingOwnMemory = false → s'.gl = s.gl)
        ∧ ((s.texObjects addr).mIsUsingOwnMemory = true →
            s'.gl.liveTextures
              = s.gl.liveTextures.erase (s.texObjects addr).mGPUTextureID)) := by
  refine ⟨?_, ?_, ?_, ?_, ?_, ?_, ?_, ?_⟩
  · intro s fmt p W H hd
    simp only [createTexture_raw, hd, ne_eq, not_true_eq_false, if_false]
    exact ⟨_, _, rfl, by simp [updObj], by simp [updObj], rfl⟩
  · intro fast s p hd
    rcases fast <;>
      simp only [createTexture_itex, hd, ne_eq, not_true_eq_false, if_false,
        Bool.false_eq_true, if_true] <;>
      exact ⟨_, _, rfl, by simp [updObj], by simp [updObj], rfl⟩
  · intro s p hd
    simp only [createTexture_img, hd, ne_eq, not_true_eq_false, if_false]
    exact ⟨_, _, rfl, by simp [updObj], by simp [updObj], rfl⟩
  · intro s hd
    simp only [createFontTexture, hd, ne_eq, not_true_eq_false, if_false]
    exact ⟨_, _, rfl, by simp [updObj], by simp [updObj], rfl⟩
  · intro s addr fmt p W H hd hval hgpu
    by_cases hrec : updateRecreateNeeded (s.texObjects addr) .ETST_RAWDATA p = true
    · simp only [updateTexture_raw, hval, hrec, hd, ne_eq, not_true_eq_false, if_false,
        if_true]
      exact ⟨_, rfl, by simp [updObj], by simp [updObj], rfl⟩
    · rw [Bool.not_eq_true] at hrec
      simp only [updateTexture_raw, hval, hrec, if_true, Bool.false_eq_true, if_false]
      exact ⟨s, rfl, hgpu, hval, rfl⟩
  · intro fast s addr p hd hval hgpu
    by_cases hrec : updateRecreateNeeded (s.texObjects addr) .ETST_TEXTURE p = true
    · rcases fast <;>
        simp only [updateTexture_itex, hval, hrec, hd, ne_eq, not_true_eq_false, if_false,
          if_true, Bool.false_eq_true] <;>
        exact ⟨_, rfl, by simp [updObj], by simp [updObj], rfl⟩
    · rw [Bool.not_eq_true] at hrec
      rcases fast <;>
        simp only [updateTexture_itex, hval, hrec, if_true, Bool.false_eq_true, if_false] <;>
        exact ⟨s, rfl, hgpu, hval, rfl⟩
  · intro s addr p hd hval hgpu
    by_cases hrec : updateRecreateNeeded (s.texObjects addr) .ETST_IMAGE p = true
    · simp only [updateTexture_img, hval, hrec, hd, ne_eq, not_true_eq_false, if_false,
        if_true]
      exact ⟨_, rfl, by simp [updObj], by simp [updObj], rfl⟩
    · rw [Bool.not_eq_true] at hrec
      simp only [updateTexture_img, hval, hrec, if_true, Bool.false_eq_true, if_false]
      exact ⟨s, rfl, hgpu, hval, rfl⟩
  · intro s addr hd hval
    have hds := deleteTextureFromMemory_spec s.gl (s.texObjects addr)
    simp only [updateFontTexture, hval, hd, ne_eq, not_true_eq_false, if_false, if_true]
    exact ⟨_, rfl, by simp [updObj], by simp [updObj], hds.2.1, hds.2.2.2.2.1,
      hds.2.2.2.1⟩

theorem C8_null_driver_sentinel_witness :
    (∃ s' addr, createTexture_raw sN .ECF_A8 100 2 2 = some (s', addr)
      ∧ (s'.texObjects addr).mGPUTextureID = 1
      ∧ (s'.texObjects addr).mIsValid = true
      ∧ s'.gl = sN.gl)
    ∧ (∃ s', updateTexture_raw sN 0 .ECF_A8 100 2 2 = some s'
      ∧ (s'.texObjects 0).mGPUTextureID = 1
      ∧ (s'.texObjects 0).mIsValid = true
      ∧ s'.gl = sN.gl)
    ∧ (∃ s', updateFontTexture sN 0 = some s'
      ∧ (s'.texObjects 0).mGPUTextureID = 1
      ∧ (s'.texObjects 0).mIsValid = true
      ∧ s'.gl.nextTextureName = sN.gl.nextTextureName
      ∧ ((sN.texObjects 0).mIsUsingOwnMemory = false → s'.gl = sN.gl)
      ∧ ((sN.texObjects 0).mIsUsingOwnMemory = true →
          s'.gl.liveTextures = sN.gl.liveTextures.erase (sN.texObjects 0).mGPUTextureID)) :=
  ⟨C8_null_driver_sentinel.1 sN .ECF_A8 100 2 2 rfl,
   C8_null_driver_sentinel.2.2.2.2.1 sN 0 .ECF_A8 100 2 2 rfl (by decide) (by decide),
   C8_null_driver_sentinel.2.2.2.2.2.2.2 sN 0 rfl (by decide)⟩

theorem createTexture_raw_count (s : DriverState) (fmt : EColorFormat) (p W H : Nat)
    (r : DriverState × Nat) (h : createTexture_raw s fmt p W H = some r) :
    r.1.mTextureInstances = incU32 s.mTextureInstances := by
  simp only [createTexture_raw] at h
  repeat' split at h
  all_goals
    first
      | exact Option.noConfusion h
      | (injection h with h2; subst h2; rfl)

theorem createTexture_itex_count (fast : Bool) (s : DriverState) (p : Nat)
    (r : DriverState × Nat) (h : createTexture_itex fast s p = some r) :
    r.1.mTextureInstances = incU32 s.mTextureInstances := by
  simp only [createTexture_itex] at h
  repeat' split at h
  all_goals
    first
      | exact Option.noConfusion h
      | (injection h with h2; subst h2; rfl)

theorem createTexture_img_count (s : DriverState) (p : Nat)
    (r : DriverState × Nat) (h : createTexture_img s p = some r) :
    r.1.mTextureInstances = incU32 s.mTextureInstances := by
  simp only [createTexture_img] at h
  repeat' split at h
  all_goals
    first
      | exact Option.noConfusion h
      | (injection h with h2; subst h2; rfl)

theorem createFontTexture_count (s : DriverState)
    (r : DriverState × Nat) (h : createFontTexture s = some r) :
    r.1.mTextureInstances = incU32 s.mTextureInstances := by
  simp only [createFontTexture] at h
  repeat' split at h
  all_goals
    first
      | exact Option.noConfusion h
      | (injection h with h2; subst h2; rfl)

theorem updateTexture_raw_count (s : DriverState) (addr : Nat) (fmt : EColorFormat)
    (p W H : Nat) (s1 : DriverState) (h : updateTexture_raw s addr fmt p W H = some s1) :
    s1.mTextureInstances = s.mTextureInstances := by
  simp only [updateTexture_raw] at h
  repeat' split at h
  all_goals
    first
      | exact Option.noConfusion h
      | (injection h with h2; subst h2; rfl)

theorem updateTexture_itex_count (fast : Bool) (s : DriverState) (addr p : Nat)
    (s1 : DriverState) (h : updateTexture_itex fast s addr p = some s1) :
    s1.mTextureInstances = s.mTextureInstances := by
  simp only [updateTexture_itex] at h
  repeat' split at h
  all_goals
    first
      | exact Option.noConfusion h
      | (injection h with h2; subst h2; rfl)

theorem updateTexture_img_count (s : DriverState) (addr p : Nat)
    (s1 : DriverState) (h : updateTexture_img s addr p = some s1) :
    s1.mTextureInstances = s.mTextureInstances := by
  simp only [updateTexture_img] at h
  repeat' split at h
  all_goals
    first
      | exact Option.noConfusion h
      | (injection h with h2; subst h2; rfl)

theorem updateFontTexture_count (s : DriverState) (addr : Nat)
    (s1 : DriverState) (h : updateFontTexture s addr = some s1) :
    s1.mTextureInstances = s.mTextureInstances := by
  simp only [updateFontTexture] at h
  repeat' split at h
  all_goals
    first
      | exact Option.noConfusion h
      | (injection h with h2; subst h2; rfl)

theorem deleteTexture_count (s : DriverState) (addr : Nat)
    (s1 : DriverState) (h : deleteTexture s addr = some s1) :
    s1.mTextureInstances = decU32 s.mTextureInstances := by
  simp only [deleteTexture] at h
  repeat' split at h
  all_goals
    first
      | exact Option.noConfusion h
      | (injection h with h2; subst h2; rfl)

theorem applyOp_count (s : DriverState) (op : DriverOp) (s1 : DriverState)
    (h : applyOp s op = some s1) :
    s1.mTextureInstances
      = (if isCreateOp op = true then incU32 s.mTextureInstances
         else if isDeleteOp op = true then decU32 s.mTextureInstances
         else s.mTextureInstances) := by
  cases op with
  | opCreateRaw fmt p W H =>
    simp only [applyOp, Option.map_eq_some'] at h
    obtain ⟨r, hr, hr2⟩ := h
    subst hr2
    simpa [isCreateOp] using createTexture_raw_count s fmt p W H r hr
  | opCreateITex fast p =>
    simp only [applyOp, Option.map_eq_some'] at h
    obtain ⟨r, hr, hr2⟩ := h
    subst hr2
    simpa [isCreateOp] using createTexture_itex_count fast s p r hr
  | opCreateImg p =>
    simp only [applyOp, Option.map_eq_some'] at h
    obtain ⟨r, hr, hr2⟩ := h
    subst hr2
    simpa [isCreateOp] using createTexture_img_count s p r hr
  | opCreateFont =>
    simp only [applyOp, Option.map_eq_some'] at h
    obtain ⟨r, hr, hr2⟩ := h
    subst hr2
    simpa [isCreateOp] using createFontTexture_count s r hr
  | opUpdateRaw addr fmt p W H =>
    simpa [isCreateOp, isDeleteOp] using updateTexture_raw_count s addr fmt p W H s1 h
  | opUpdateITex fast addr p =>
    simpa [isCreateOp, isDeleteOp] using updateTexture_itex_count fast s addr p s1 h
  | opUpdateImg addr p =>
    simpa [isCreateOp, isDeleteOp] using updateTexture_img_count s addr p s1 h
  | opUpdateFont addr =>
    simpa [isCreateOp, isDeleteOp] using updateFontTexture_count s addr s1 h
  | opDelete addr =>
    simpa [isCreateOp, isDeleteOp] using deleteTexture_count s addr s1 h
  | opDraw dd =>
    simp only [applyOp, Option.some.injEq] at h
    subst h
    simp [isCreateOp, isDeleteOp, drawGUIListOp]

theorem applySeq_count (ops : List DriverOp) :
    ∀ (s s' : DriverState), s.mTextureInstances < 4294967296 →
      applySeq s ops = some s' →
      s'.mTextureInstances
        = (s.mTextureInstances + numCreates ops + 4294967295 * numDeletes ops)
            % 4294967296 := by
  induction ops with
  | nil =>
    intro s s' hlt h
    simp only [applySeq, Option.some.injEq] at h
    subst h
    simp [numCreates, numDeletes]
    omega
  | cons op rest ih =>
    intro s s' hlt h
    simp only [applySeq] at h
    rcases ho : applyOp s op with _ | s1
    · rw [ho] at h; exact absurd h (by simp)
    · rw [ho] at h
      have hc := applyOp_count s op s1 ho
      rcases hcr : isCreateOp op with _ | _ <;> rcases hdl : isDeleteOp op with _ | _
      · simp only [hcr, hdl, Bool.false_eq_true, if_false] at hc
        have := ih s1 s' (by rw [hc]; exact hlt) h
        rw [this, hc]
        simp [numCreates, numDeletes, hcr, hdl, List.filter_cons]
      · simp only [hcr, hdl, Bool.false_eq_true, if_false, if_true] at hc
        have h1 : s1.mTextureInstances < 4294967296 := by
          rw [hc]; exact Nat.mod_lt _ (by omega)
        have := ih s1 s' h1 h
        rw [this, hc]
        simp only [numCreates, numDeletes, List.filter_cons, hcr, hdl,
          Bool.false_eq_true, if_false, if_true, List.length_cons]
        unfold decU32
        omega
      · simp only [hcr, hdl, Bool.false_eq_true, if_false, if_true] at hc
        have h1 : s1.mTextureInstances < 4294967296 := by
          rw [hc]; exact Nat.mod_lt _ (by omega)
        have := ih s1 s' h1 h
        rw [this, hc]
        simp only [numCreates, numDeletes, List.filter_cons, hcr, hdl,
          Bool.false_eq_true, if_false, if_true, List.length_cons]
        unfold incU32
        omega
      · rcases op <;> simp [isCreateOp, isDeleteOp] at hcr hdl

/-- C10: every createTexture overload and createFontTexture increments
`mTextureInstances` by exactly one, deleteTexture decrements it by exactly
one, and no other operation (updateTexture overloads, updateFontTexture,
drawGUIList) changes it; along any operation sequence the counter equals
its initial value plus creates minus deletes (mod 2^32), hence the number
of wrappers created and not yet deleted. -/
theorem C10_texture_instance_counter :
    (∀ (s : DriverState) (fmt : EColorFormat) (p W H : Nat) (r : DriverState × Nat),
      createTexture_raw s fmt p W H = some r →
      r.1.mTextureInstances = incU32 s.mTextureInstances)
    ∧
    (∀ (fast : Bool) (s : DriverState) (p : Nat) (r : DriverState × Nat),
      createTexture_itex fast s p = some r →
      r.1.mTextureInstances = incU32 s.mTextureInstances)
    ∧
    (∀ (s : DriverState) (p : Nat) (r : DriverState × Nat),
      createTexture_img s p = some r →
      r.1.mTextureInstances = incU32 s.mTextureInstances)
    ∧
    (∀ (s : DriverState) (r : DriverState × Nat),
      createFontTexture s = some r →
      r.1.mTextureInstances = incU32 s.mTextureInstances)
    ∧
    (∀ (s : DriverState) (addr : Nat) (fmt : EColorFormat) (p W H : Nat)
        (s1 : DriverState),
      updateTexture_raw s addr fmt p W H = some s1 →
      s1.mTextureInstances = s.mTextureInstances)
    ∧
    (∀ (fast : Bool) (s : DriverState) (addr p : Nat) (s1 : DriverState),
      updateTexture_itex fast s addr p = some s1 →
      s1.mTextureInstances = s.mTextureInstances)
    ∧
    (∀ (s : DriverState) (addr p : Nat) (s1 : DriverState),
      updateTexture_img s addr p = some s1 →
      s1.mTextureInstances = s.mTextureInstances)
    ∧
    (∀ (s : DriverState) (addr : Nat) (s1 : DriverState),
      updateFontTexture s addr = some s1 →
      s1.mTextureInstances = s.mTextureInstances)
    ∧
    (∀ (s : DriverState) (addr : Nat) (s1 : DriverState),
      deleteTexture s addr = some s1 →
      s1.mTextureInstances = decU32 s.mTextureInstances)
    ∧
    (∀ (s : DriverState) (dd : ImDrawData),
      (drawGUIListOp s dd).mTextureInstances = s.mTextureInstances)
    ∧
    (∀ (ops : List DriverOp) (s s' : DriverState),
      s.mTextureInstances < 4294967296 →
      applySeq s ops = some s' →
      s'.mTextureInstances
        = (s.mTextureInstances + numCreates ops + 4294967295 * numDeletes ops)
            % 4294967296)
    ∧
    (∀ (ops : List DriverOp) (s s' : DriverState),
      s.mTextureInstances = 0 →
      numDeletes ops ≤ numCreates ops →
      numCreates ops < 4294967296 →
      applySeq s ops = some s' →
      s'.mTextureInstances = numCreates ops - numDeletes ops) := by
  refine ⟨createTexture_raw_count, createTexture_itex_count, createTexture_img_count,
    createFontTexture_count, updateTexture_raw_count, updateTexture_itex_count,
    updateTexture_img_count, updateFontTexture_count, deleteTexture_count,
    ?_, ?_, ?_⟩
  · intro s dd
    rfl
  · intro ops s s' hlt h
    exact applySeq_count ops s s' hlt h
  · intro ops s s' h0 hdc hlt h
    have := applySeq_count ops s s' (by omega) h
    rw [this, h0]
    omega

theorem C10_texture_instance_counter_witness :
    (∃ r, createFontTexture sA = some r
      ∧ r.1.mTextureInstances = incU32 sA.mTextureInstances)
    ∧ (∃ s1, deleteTexture sA 0 = some s1
      ∧ s1.mTextureInstances = decU32 sA.mTextureInstances)
    ∧ (∃ s', applySeq sZ opsA = some s'
      ∧ s'.mTextureInstances = numCreates opsA - numDeletes opsA) := by
  refine ⟨?_, ?_, ?_⟩
  · have h : (createFontTexture sA).isSome = true := by decide
    have he : createFontTexture sA = some ((createFontTexture sA).get h) :=
      (Option.some_get h).symm
    exact ⟨_, he, C10_texture_instance_counter.2.2.2.1 sA _ he⟩
  · have h : (deleteTexture sA 0).isSome = true := by decide
    have he : deleteTexture sA 0 = some ((deleteTexture sA 0).get h) :=
      (Option.some_get h).symm
    exact ⟨_, he, C10_texture_instance_counter.2.2.2.2.2.2.2.2.1 sA 0 _ he⟩
  · have h : (applySeq sZ opsA).isSome = true := by decide
    have he : applySeq sZ opsA = some ((applySeq sZ opsA).get h) :=
      (Option.some_get h).symm
    exact ⟨_, he, C10_texture_instance_counter.2.2.2.2.2.2.2.2.2.2.2 opsA sZ _ rfl
      (by decide) (by decide) he⟩
